import Mathlib

/-!
Verification development for the `UANS_ChangeCapsuleBase` animation notify
state (src/Source/UnrealHelperLibrary/Private/Animation/Notifies/
ANS_ChangeCapsuleBase.cpp).

The C++ float arithmetic is embedded over `ℚ` (exact rational arithmetic);
`KINDA_SMALL_NUMBER` keeps its engine value `1e-4`.  The mutable capsule
component is embedded as an explicit `Capsule` record carried next to the
notify's member state in `SysState`; the `CapsuleComp` pointer becomes the
Boolean `hasCapsule` (the pointer either is null or designates the one
capsule of the state).

Engine types that the repository only calls into are modelled at the
boundary the spec fixes for them:
* shape color: the spec's target boundary exposes the shape color as a
  linear color (spec section 6), so `Capsule.shapeColor` is a `LinearColor`
  and the engine byte conversions `ReinterpretAsLinear` / `ToFColor` are
  absorbed into that boundary (reads and writes act on the linear value).
* `FAlphaBlend` is modelled from the spec: an evaluator carrying a
  duration, an interpolation-shape selector and internal progress advanced
  by `update`; its blended value is the shape applied to the normalized
  progress, range [0,1], with a zero-length duration meaning instant.
* the ease curve (`FRuntimeFloatCurve`) is modelled from the spec as an
  optional remap function; `none` stands for "curve absent or without
  keys".
* collision getters/setters are the independent per-field accessors of
  spec section 6.
-/

/-- The engine constant `KINDA_SMALL_NUMBER` (1e-4). -/
def KINDA_SMALL_NUMBER : ℚ := 1 / 10000

/-- `FMath::Clamp(x, 0, 1)`. -/
def clamp01 (x : ℚ) : ℚ := max 0 (min x 1)

/-- `FMath::Lerp(a, b, alpha) = a + alpha * (b - a)`. -/
def lerpQ (a b alpha : ℚ) : ℚ := a + alpha * (b - a)

/-- `FVector` restricted to the fields the notify uses. -/
structure Vec3 where
  x : ℚ
  y : ℚ
  z : ℚ
  deriving DecidableEq

/-- Component-wise `FMath::Lerp` on vectors. -/
def Vec3.lerp (a b : Vec3) (alpha : ℚ) : Vec3 :=
  ⟨lerpQ a.x b.x alpha, lerpQ a.y b.y alpha, lerpQ a.z b.z alpha⟩

/-- `FLinearColor` (the spec's boundary representation of the shape color). -/
structure LinearColor where
  r : ℚ
  g : ℚ
  b : ℚ
  a : ℚ
  deriving DecidableEq

/-- Component-wise `FMath::Lerp` on linear colors. -/
def LinearColor.lerp (c d : LinearColor) (alpha : ℚ) : LinearColor :=
  ⟨lerpQ c.r d.r alpha, lerpQ c.g d.g alpha, lerpQ c.b d.b alpha,
   lerpQ c.a d.a alpha⟩

/-- `ECollisionEnabled::Type`. -/
inductive CollisionEnabledType where
  | NoCollision
  | QueryOnly
  | PhysicsOnly
  | QueryAndPhysics
  deriving DecidableEq

/-- `ECollisionResponse`. -/
inductive CollisionResponse where
  | ECR_Ignore
  | ECR_Overlap
  | ECR_Block
  deriving DecidableEq

/-- Number of values of `ECollisionChannel` (`ECC_MAX` = 33 in the engine). -/
def NumCollisionChannels : ℕ := 33

/-- A collision channel (`ECollisionChannel` below `ECC_MAX`). -/
abbrev Channel := Fin NumCollisionChannels

/-- The capsule component: the five blendable attributes plus the four
collision sub-fields the notify touches. -/
structure Capsule where
  radius : ℚ
  halfHeight : ℚ
  scale : Vec3
  lineThickness : ℚ
  shapeColor : LinearColor
  collisionEnabled : CollisionEnabledType
  collisionProfileName : String
  generateOverlapEvents : Bool
  responses : Channel → CollisionResponse

/-- `FCapsuleCollisionSettings`: the collision override / snapshot bundle
(per-field override flags, configured values, and the per-channel response
entries as a key/value list mirroring the `TMap` iteration order). -/
structure CollisionSettings where
  collisionEnabled : CollisionEnabledType
  bForceQueryOnly : Bool
  bOverrideCollisionEnabled : Bool
  collisionProfileName : String
  bOverrideCollisionProfileName : Bool
  bGenerateOverlapEvents : Bool
  bOverrideGenerateOverlapEvents : Bool
  customResponses : List (Channel × CollisionResponse)
  bOverrideCustomResponses : Bool

/-- Modelled from the spec: the interpolation-shape selector of a blend
evaluator, a map over normalized progress in [0,1] (`EAlphaBlendOption`;
the engine enum is not under src/). -/
structure BlendOption where
  shape : ℚ → ℚ

/-- The linear interpolation shape. -/
def BlendOption.linear : BlendOption := ⟨fun t => t⟩

/-- Modelled from the spec: `FAlphaBlend`, a blend evaluator parameterized
by a duration and a shape selector, carrying internal progress advanced by
`update` (the engine class is not under src/). -/
structure AlphaBlend where
  blendTime : ℚ
  option : BlendOption
  accumulated : ℚ

/-- `FAlphaBlend::Update(DeltaTime)`: advance internal progress. -/
def AlphaBlend.update (b : AlphaBlend) (dt : ℚ) : AlphaBlend :=
  { b with accumulated := b.accumulated + dt }

/-- `FAlphaBlend::GetBlendedValue()`: the shape applied to normalized
progress, clamped to [0,1]; a zero-length blend is instantly complete. -/
def AlphaBlend.getBlendedValue (b : AlphaBlend) : ℚ :=
  if b.blendTime ≤ 0 then 1
  else b.option.shape (clamp01 (b.accumulated / b.blendTime))

/-- The notify object's member state: the designer-facing configuration
(UPROPERTY members declared in the header) followed by the runtime members
the .cpp file mutates. -/
structure NotifyState where
  bModifyRadius : Bool
  newRadius : ℚ
  bModifyHalfHeight : Bool
  newHalfHeight : ℚ
  bModifyScale : Bool
  newScale : Vec3
  bModifyLineThickness : Bool
  newLineThickness : ℚ
  bModifyShapeColor : Bool
  newShapeColor : LinearColor
  blendTimeIn : ℚ
  blendTimeOut : ℚ
  blendOptionIn : BlendOption
  blendOptionOut : BlendOption
  easeCurve : Option (ℚ → ℚ)
  capsuleCollisionSettings : CollisionSettings
  bDebug : Bool
  elapsedTime : ℚ
  notifyTotalDuration : ℚ
  bHasValidOriginals : Bool
  hasCapsule : Bool
  originalRadius : ℚ
  originalHalfHeight : ℚ
  originalScale : Vec3
  originalLineThickness : ℚ
  originalShapeColor : LinearColor
  targetRadius : ℚ
  targetHalfHeight : ℚ
  targetScale : Vec3
  targetLineThickness : ℚ
  targetShapeColor : LinearColor
  blendInAlpha : AlphaBlend
  blendOutAlpha : AlphaBlend
  originalCapsuleSettings : CollisionSettings

/-- The notify's member state together with the external capsule it may
point at (`hasCapsule` stands for `CapsuleComp != nullptr`). -/
structure SysState where
  notify : NotifyState
  capsule : Capsule

/-- Sequential `SetCollisionResponseToChannel` calls over a key/value
list. -/
def setResponses (prs : List (Channel × CollisionResponse)) (c : Capsule) :
    Capsule :=
  prs.foldl
    (fun acc p => { acc with responses := Function.update acc.responses p.1 p.2 })
    c

/-- `SaveOriginalCollisionSettings` (lines 248-275): read all four collision
sub-fields from the capsule, enumerate every channel into the response
table, and mark all four as owned for restore.  The null check at its head
never fires on the .cpp call site (NotifyBegin calls it only after a
capsule was found), so the model takes the capsule directly. -/
def saveOriginalCollisionSettings (c : Capsule) : CollisionSettings where
  collisionEnabled := c.collisionEnabled
  bForceQueryOnly := false
  bOverrideCollisionEnabled := true
  collisionProfileName := c.collisionProfileName
  bOverrideCollisionProfileName := true
  bGenerateOverlapEvents := c.generateOverlapEvents
  bOverrideGenerateOverlapEvents := true
  customResponses :=
    (List.finRange NumCollisionChannels).map (fun ch => (ch, c.responses ch))
  bOverrideCustomResponses := true

/-- `ApplyCollisionSettings` (lines 295-325): write each collision
sub-field whose override flag is set, with `bForceQueryOnly` forcing
`QueryOnly` over the configured enabled-mode. -/
def applyCollisionSettings (cfg : CollisionSettings) (c : Capsule) : Capsule :=
  let c1 :=
    if cfg.bOverrideCollisionEnabled then
      { c with collisionEnabled := if cfg.bForceQueryOnly then CollisionEnabledType.QueryOnly else cfg.collisionEnabled }
    else c
  let c2 :=
    if cfg.bOverrideCollisionProfileName then
      { c1 with collisionProfileName := cfg.collisionProfileName }
    else c1
  let c3 :=
    if cfg.bOverrideGenerateOverlapEvents then
      { c2 with generateOverlapEvents := cfg.bGenerateOverlapEvents }
    else c2
  if cfg.bOverrideCustomResponses then setResponses cfg.customResponses c3
  else c3

/-- `RestoreOriginalCollisionSettings` (lines 277-293): unconditionally
write back all four saved collision sub-fields. -/
def restoreOriginalCollisionSettings (saved : CollisionSettings)
    (c : Capsule) : Capsule :=
  let c1 := { c with collisionEnabled := saved.collisionEnabled }
  let c2 := { c1 with collisionProfileName := saved.collisionProfileName }
  let c3 := { c2 with generateOverlapEvents := saved.bGenerateOverlapEvents }
  setResponses saved.customResponses c3

/-- The instant blend-in writes of NotifyBegin (lines 66-88): snap each
attribute whose modify flag is set to its target value. -/
def applyInstantBlendIn (n : NotifyState) (c : Capsule) : Capsule :=
  let c1 := if n.bModifyRadius then { c with radius := n.targetRadius } else c
  let c2 :=
    if n.bModifyHalfHeight then { c1 with halfHeight := n.targetHalfHeight }
    else c1
  let c3 := if n.bModifyScale then { c2 with scale := n.targetScale } else c2
  let c4 :=
    if n.bModifyLineThickness then
      { c3 with lineThickness := n.targetLineThickness }
    else c3
  if n.bModifyShapeColor then { c4 with shapeColor := n.targetShapeColor }
  else c4

/-- The per-tick lerp writes of NotifyTick (lines 143-174): for each
attribute with its modify flag set, write
`Lerp(original, target, alpha)`. -/
def lerpWrite (n : NotifyState) (alpha : ℚ) (c : Capsule) : Capsule :=
  let c1 :=
    if n.bModifyRadius then
      { c with radius := lerpQ n.originalRadius n.targetRadius alpha }
    else c
  let c2 :=
    if n.bModifyHalfHeight then
      { c1 with halfHeight := lerpQ n.originalHalfHeight n.targetHalfHeight alpha }
    else c1
  let c3 :=
    if n.bModifyScale then
      { c2 with scale := Vec3.lerp n.originalScale n.targetScale alpha }
    else c2
  let c4 :=
    if n.bModifyLineThickness then
      { c3 with lineThickness := lerpQ n.originalLineThickness n.targetLineThickness alpha }
    else c3
  if n.bModifyShapeColor then
    { c4 with shapeColor := LinearColor.lerp n.originalShapeColor n.targetShapeColor alpha }
  else c4

/-- The restoration writes of NotifyEnd (lines 217-237): write the stored
original back for each attribute whose modify flag is set. -/
def restoreAttributes (n : NotifyState) (c : Capsule) : Capsule :=
  let c1 :=
    if n.bModifyRadius then { c with radius := n.originalRadius } else c
  let c2 :=
    if n.bModifyHalfHeight then { c1 with halfHeight := n.originalHalfHeight }
    else c1
  let c3 :=
    if n.bModifyScale then { c2 with scale := n.originalScale } else c2
  let c4 :=
    if n.bModifyLineThickness then
      { c3 with lineThickness := n.originalLineThickness }
    else c3
  if n.bModifyShapeColor then { c4 with shapeColor := n.originalShapeColor }
  else c4

/-- `NotifyBegin` (lines 8-93).  `meshValid` stands for `MeshComp !=
nullptr` and `capsuleFound` for `FindCapsuleComponent(MeshComp)` returning
non-null (the locator lives in the subclass; a found capsule is the state's
capsule).  Note the faithful reproduction of the source: the original
snapshot reads radius, half-height, scale and shape color from the capsule
but never reads the capsule's line thickness — `targetLineThickness` for an
unmodified line thickness falls back to the pre-existing member value
`originalLineThickness`, and that member is also what NotifyEnd later
writes back. -/
def NotifyBegin (s : SysState) (meshValid capsuleFound : Bool)
    (totalDuration : ℚ) : SysState :=
  let n0 := { s.notify with
    elapsedTime := 0
    notifyTotalDuration := totalDuration
    bHasValidOriginals := false
    hasCapsule := false }
  if meshValid = false then { s with notify := n0 }
  else if capsuleFound = false then { s with notify := n0 }
  else
    let c := s.capsule
    let n1 := { n0 with
      hasCapsule := true
      originalRadius := c.radius
      originalHalfHeight := c.halfHeight
      originalScale := c.scale
      originalShapeColor := c.shapeColor
      targetRadius := if n0.bModifyRadius then n0.newRadius else c.radius
      targetHalfHeight := if n0.bModifyHalfHeight then n0.newHalfHeight else c.halfHeight
      targetScale := if n0.bModifyScale then n0.newScale else c.scale
      targetLineThickness := if n0.bModifyLineThickness then n0.newLineThickness else n0.originalLineThickness
      targetShapeColor := if n0.bModifyShapeColor then n0.newShapeColor else c.shapeColor
      bHasValidOriginals := true
      blendInAlpha := ⟨if KINDA_SMALL_NUMBER < n0.blendTimeIn then n0.blendTimeIn else 0, n0.blendOptionIn, 0⟩
      blendOutAlpha := ⟨if KINDA_SMALL_NUMBER < n0.blendTimeOut then n0.blendTimeOut else 0, n0.blendOptionOut, 0⟩ }
    let c1 :=
      if n1.blendTimeIn ≤ KINDA_SMALL_NUMBER then applyInstantBlendIn n1 c
      else c
    let n2 := { n1 with originalCapsuleSettings := saveOriginalCollisionSettings c1 }
    { notify := n2, capsule := applyCollisionSettings n2.capsuleCollisionSettings c1 }

/-- The three-phase raw-alpha computation of NotifyTick (lines 111-132),
taking the state with `elapsedTime` already accumulated; returns the raw
alpha before clamping together with the notify state after any evaluator
advance.  The source's blend-out branch computes a local `OutElapsed` it
never uses; `update` is called with the frame delta. -/
def tickRawAlpha (n : NotifyState) (dt : ℚ) : ℚ × NotifyState :=
  if KINDA_SMALL_NUMBER < n.blendTimeIn ∧ n.elapsedTime < n.blendTimeIn then
    let b := n.blendInAlpha.update dt
    (b.getBlendedValue, { n with blendInAlpha := b })
  else if n.blendTimeIn ≤ n.elapsedTime ∧
      n.elapsedTime ≤ n.notifyTotalDuration - n.blendTimeOut then
    (1, n)
  else if KINDA_SMALL_NUMBER < n.blendTimeOut ∧
      n.notifyTotalDuration - n.blendTimeOut < n.elapsedTime then
    let b := n.blendOutAlpha.update dt
    (1 - b.getBlendedValue, { n with blendOutAlpha := b })
  else
    (1, n)

/-- One tick step on the notify members: accumulate the frame delta, then
run the phase computation. -/
def tickStep (n : NotifyState) (dt : ℚ) : ℚ × NotifyState :=
  tickRawAlpha { n with elapsedTime := n.elapsedTime + dt } dt

/-- The raw alpha a tick from state `n` with frame delta `dt` computes
after the clamp to [0,1] (line 134), before the ease-curve remap. -/
def tickRawClamped (n : NotifyState) (dt : ℚ) : ℚ :=
  clamp01 (tickStep n dt).1

/-- The alpha actually used for the lerp writes: the clamped raw alpha,
remapped and re-clamped through the ease curve when one with keys is
configured (lines 136-141). -/
def tickAlphaFinal (n : NotifyState) (dt : ℚ) : ℚ :=
  match n.easeCurve with
  | some f => clamp01 (f (tickRawClamped n dt))
  | none => tickRawClamped n dt

/-- `NotifyTick` (lines 95-202).  The debug draw (lines 176-201) is purely
observational and has no state effect. -/
def NotifyTick (s : SysState) (dt : ℚ) : SysState :=
  if s.notify.bHasValidOriginals = false ∨ s.notify.hasCapsule = false then s
  else
    { notify := (tickStep s.notify dt).2,
      capsule := lerpWrite (tickStep s.notify dt).2 (tickAlphaFinal s.notify dt) s.capsule }

/-- `NotifyEnd` (lines 204-246): restore every modified attribute, restore
the collision snapshot, then clear the runtime members. -/
def NotifyEnd (s : SysState) : SysState :=
  if s.notify.bHasValidOriginals = false ∨ s.notify.hasCapsule = false then s
  else
    { notify := { s.notify with
        hasCapsule := false
        bHasValidOriginals := false
        elapsedTime := 0
        notifyTotalDuration := 0 },
      capsule := restoreOriginalCollisionSettings s.notify.originalCapsuleSettings (restoreAttributes s.notify s.capsule) }

/-- A sequence of `NotifyTick` calls with the given frame deltas. -/
def runTicks (s : SysState) (ds : List ℚ) : SysState :=
  ds.foldl NotifyTick s

/-! ### Helper lemmas -/

/-- The effect of a response key/value list on the response table alone. -/
def applyResp (prs : List (Channel × CollisionResponse))
    (r : Channel → CollisionResponse) : Channel → CollisionResponse :=
  prs.foldl (fun acc p => Function.update acc p.1 p.2) r

theorem setResponses_eq (prs : List (Channel × CollisionResponse)) (c : Capsule) :
    setResponses prs c = { c with responses := applyResp prs c.responses } := by
  induction prs generalizing c with
  | nil => rfl
  | cons p t ih => simpa [setResponses, applyResp] using ih _

theorem applyResp_table (cs : List Channel) (f r : Channel → CollisionResponse)
    (ch : Channel) :
    applyResp (cs.map (fun c => (c, f c))) r ch =
      if ch ∈ cs then f ch else r ch := by
  induction cs generalizing r with
  | nil => simp [applyResp]
  | cons c t ih =>
    have step : applyResp ((c, f c) :: t.map (fun d => (d, f d))) r =
        applyResp (t.map (fun d => (d, f d))) (Function.update r c (f c)) := rfl
    by_cases hm : ch ∈ t
    · simp [step, ih, hm]
    · by_cases he : ch = c
      · subst he
        simp [step, ih, hm]
      · simp [step, ih, hm, he, Function.update_apply]

theorem restore_save_responses (c0 c : Capsule) :
    (restoreOriginalCollisionSettings (saveOriginalCollisionSettings c0) c).responses
      = c0.responses := by
  funext ch
  simp [restoreOriginalCollisionSettings, saveOriginalCollisionSettings,
    setResponses_eq, applyResp_table, List.mem_finRange]

theorem applyCollisionSettings_radius (cfg : CollisionSettings) (c : Capsule) :
    (applyCollisionSettings cfg c).radius = c.radius := by
  unfold applyCollisionSettings
  split_ifs <;> simp [setResponses_eq]

theorem applyCollisionSettings_halfHeight (cfg : CollisionSettings) (c : Capsule) :
    (applyCollisionSettings cfg c).halfHeight = c.halfHeight := by
  unfold applyCollisionSettings
  split_ifs <;> simp [setResponses_eq]

theorem applyCollisionSettings_scale (cfg : CollisionSettings) (c : Capsule) :
    (applyCollisionSettings cfg c).scale = c.scale := by
  unfold applyCollisionSettings
  split_ifs <;> simp [setResponses_eq]

theorem applyCollisionSettings_lineThickness (cfg : CollisionSettings) (c : Capsule) :
    (applyCollisionSettings cfg c).lineThickness = c.lineThickness := by
  unfold applyCollisionSettings
  split_ifs <;> simp [setResponses_eq]

theorem applyCollisionSettings_shapeColor (cfg : CollisionSettings) (c : Capsule) :
    (applyCollisionSettings cfg c).shapeColor = c.shapeColor := by
  unfold applyCollisionSettings
  split_ifs <;> simp [setResponses_eq]

theorem restoreCollision_radius (saved : CollisionSettings) (c : Capsule) :
    (restoreOriginalCollisionSettings saved c).radius = c.radius := by
  simp [restoreOriginalCollisionSettings, setResponses_eq]

theorem restoreCollision_halfHeight (saved : CollisionSettings) (c : Capsule) :
    (restoreOriginalCollisionSettings saved c).halfHeight = c.halfHeight := by
  simp [restoreOriginalCollisionSettings, setResponses_eq]

theorem restoreCollision_scale (saved : CollisionSettings) (c : Capsule) :
    (restoreOriginalCollisionSettings saved c).scale = c.scale := by
  simp [restoreOriginalCollisionSettings, setResponses_eq]

theorem restoreCollision_lineThickness (saved : CollisionSettings) (c : Capsule) :
    (restoreOriginalCollisionSettings saved c).lineThickness = c.lineThickness := by
  simp [restoreOriginalCollisionSettings, setResponses_eq]

theorem restoreCollision_shapeColor (saved : CollisionSettings) (c : Capsule) :
    (restoreOriginalCollisionSettings saved c).shapeColor = c.shapeColor := by
  simp [restoreOriginalCollisionSettings, setResponses_eq]

theorem applyCollisionSettings_enabled (cfg : CollisionSettings) (c : Capsule) :
    (applyCollisionSettings cfg c).collisionEnabled =
      if cfg.bOverrideCollisionEnabled then
        (if cfg.bForceQueryOnly then CollisionEnabledType.QueryOnly else cfg.collisionEnabled)
      else c.collisionEnabled := by
  unfold applyCollisionSettings
  split_ifs <;> simp [setResponses_eq]

theorem applyCollisionSettings_profile (cfg : CollisionSettings) (c : Capsule) :
    (applyCollisionSettings cfg c).collisionProfileName =
      if cfg.bOverrideCollisionProfileName then cfg.collisionProfileName
      else c.collisionProfileName := by
  unfold applyCollisionSettings
  split_ifs <;> simp [setResponses_eq]

theorem applyCollisionSettings_overlap (cfg : CollisionSettings) (c : Capsule) :
    (applyCollisionSettings cfg c).generateOverlapEvents =
      if cfg.bOverrideGenerateOverlapEvents then cfg.bGenerateOverlapEvents
      else c.generateOverlapEvents := by
  unfold applyCollisionSettings
  split_ifs <;> simp [setResponses_eq]

theorem applyCollisionSettings_responses (cfg : CollisionSettings) (c : Capsule) :
    (applyCollisionSettings cfg c).responses =
      if cfg.bOverrideCustomResponses then applyResp cfg.customResponses c.responses
      else c.responses := by
  unfold applyCollisionSettings
  split_ifs <;> simp [setResponses_eq]

theorem restoreCollision_enabled (saved : CollisionSettings) (c : Capsule) :
    (restoreOriginalCollisionSettings saved c).collisionEnabled =
      saved.collisionEnabled := by
  simp [restoreOriginalCollisionSettings, setResponses_eq]

theorem restoreCollision_profile (saved : CollisionSettings) (c : Capsule) :
    (restoreOriginalCollisionSettings saved c).collisionProfileName =
      saved.collisionProfileName := by
  simp [restoreOriginalCollisionSettings, setResponses_eq]

theorem restoreCollision_overlap (saved : CollisionSettings) (c : Capsule) :
    (restoreOriginalCollisionSettings saved c).generateOverlapEvents =
      saved.bGenerateOverlapEvents := by
  simp [restoreOriginalCollisionSettings, setResponses_eq]

theorem applyInstantBlendIn_radius (n : NotifyState) (c : Capsule) :
    (applyInstantBlendIn n c).radius =
      if n.bModifyRadius then n.targetRadius else c.radius := by
  unfold applyInstantBlendIn
  split_ifs <;> simp_all

theorem applyInstantBlendIn_halfHeight (n : NotifyState) (c : Capsule) :
    (applyInstantBlendIn n c).halfHeight =
      if n.bModifyHalfHeight then n.targetHalfHeight else c.halfHeight := by
  unfold applyInstantBlendIn
  split_ifs <;> simp_all

theorem applyInstantBlendIn_scale (n : NotifyState) (c : Capsule) :
    (applyInstantBlendIn n c).scale =
      if n.bModifyScale then n.targetScale else c.scale := by
  unfold applyInstantBlendIn
  split_ifs <;> simp_all

theorem applyInstantBlendIn_lineThickness (n : NotifyState) (c : Capsule) :
    (applyInstantBlendIn n c).lineThickness =
      if n.bModifyLineThickness then n.targetLineThickness else c.lineThickness := by
  unfold applyInstantBlendIn
  split_ifs <;> simp_all

theorem applyInstantBlendIn_shapeColor (n : NotifyState) (c : Capsule) :
    (applyInstantBlendIn n c).shapeColor =
      if n.bModifyShapeColor then n.targetShapeColor else c.shapeColor := by
  unfold applyInstantBlendIn
  split_ifs <;> simp_all

theorem lerpWrite_radius (n : NotifyState) (alpha : ℚ) (c : Capsule) :
    (lerpWrite n alpha c).radius =
      if n.bModifyRadius then lerpQ n.originalRadius n.targetRadius alpha
      else c.radius := by
  unfold lerpWrite
  split_ifs <;> simp_all

theorem lerpWrite_halfHeight (n : NotifyState) (alpha : ℚ) (c : Capsule) :
    (lerpWrite n alpha c).halfHeight =
      if n.bModifyHalfHeight then lerpQ n.originalHalfHeight n.targetHalfHeight alpha
      else c.halfHeight := by
  unfold lerpWrite
  split_ifs <;> simp_all

theorem lerpWrite_scale (n : NotifyState) (alpha : ℚ) (c : Capsule) :
    (lerpWrite n alpha c).scale =
      if n.bModifyScale then Vec3.lerp n.originalScale n.targetScale alpha
      else c.scale := by
  unfold lerpWrite
  split_ifs <;> simp_all

theorem lerpWrite_lineThickness (n : NotifyState) (alpha : ℚ) (c : Capsule) :
    (lerpWrite n alpha c).lineThickness =
      if n.bModifyLineThickness then
        lerpQ n.originalLineThickness n.targetLineThickness alpha
      else c.lineThickness := by
  unfold lerpWrite
  split_ifs <;> simp_all

theorem lerpWrite_shapeColor (n : NotifyState) (alpha : ℚ) (c : Capsule) :
    (lerpWrite n alpha c).shapeColor =
      if n.bModifyShapeColor then
        LinearColor.lerp n.originalShapeColor n.targetShapeColor alpha
      else c.shapeColor := by
  unfold lerpWrite
  split_ifs <;> simp_all

theorem restoreAttributes_radius (n : NotifyState) (c : Capsule) :
    (restoreAttributes n c).radius =
      if n.bModifyRadius then n.originalRadius else c.radius := by
  unfold restoreAttributes
  split_ifs <;> simp_all

theorem restoreAttributes_halfHeight (n : NotifyState) (c : Capsule) :
    (restoreAttributes n c).halfHeight =
      if n.bModifyHalfHeight then n.originalHalfHeight else c.halfHeight := by
  unfold restoreAttributes
  split_ifs <;> simp_all

theorem restoreAttributes_scale (n : NotifyState) (c : Capsule) :
    (restoreAttributes n c).scale =
      if n.bModifyScale then n.originalScale else c.scale := by
  unfold restoreAttributes
  split_ifs <;> simp_all

theorem restoreAttributes_lineThickness (n : NotifyState) (c : Capsule) :
    (restoreAttributes n c).lineThickness =
      if n.bModifyLineThickness then n.originalLineThickness else c.lineThickness := by
  unfold restoreAttributes
  split_ifs <;> simp_all

theorem restoreAttributes_shapeColor (n : NotifyState) (c : Capsule) :
    (restoreAttributes n c).shapeColor =
      if n.bModifyShapeColor then n.originalShapeColor else c.shapeColor := by
  unfold restoreAttributes
  split_ifs <;> simp_all

theorem clamp01_one : clamp01 1 = 1 := by
  norm_num [clamp01]

theorem clamp01_mono {x y : ℚ} (h : x ≤ y) : clamp01 x ≤ clamp01 y := by
  unfold clamp01
  exact max_le_max le_rfl (min_le_min h le_rfl)

theorem tickStep_snd (n : NotifyState) (dt : ℚ) :
    ∃ bi bo, (tickStep n dt).2 =
      { n with elapsedTime := n.elapsedTime + dt, blendInAlpha := bi, blendOutAlpha := bo } := by
  unfold tickStep tickRawAlpha
  split_ifs <;> exact ⟨_, _, rfl⟩

theorem tickStep_in (n : NotifyState) (dt : ℚ)
    (hbi : KINDA_SMALL_NUMBER < n.blendTimeIn)
    (hlt : n.elapsedTime + dt < n.blendTimeIn) :
    tickStep n dt = ((n.blendInAlpha.update dt).getBlendedValue,
      { n with elapsedTime := n.elapsedTime + dt,
               blendInAlpha := n.blendInAlpha.update dt }) := by
  unfold tickStep tickRawAlpha
  rw [if_pos]
  exact ⟨hbi, hlt⟩

theorem tickStep_hold (n : NotifyState) (dt : ℚ)
    (h1 : n.blendTimeIn ≤ n.elapsedTime + dt)
    (h2 : n.elapsedTime + dt ≤ n.notifyTotalDuration - n.blendTimeOut) :
    tickStep n dt = (1, { n with elapsedTime := n.elapsedTime + dt }) := by
  unfold tickStep tickRawAlpha
  rw [if_neg, if_pos]
  · exact ⟨h1, h2⟩
  · rintro ⟨-, hlt⟩
    simp only at hlt
    linarith

theorem tickStep_out (n : NotifyState) (dt : ℚ)
    (h1 : n.blendTimeIn ≤ n.elapsedTime + dt)
    (h2 : n.notifyTotalDuration - n.blendTimeOut < n.elapsedTime + dt)
    (h3 : KINDA_SMALL_NUMBER < n.blendTimeOut) :
    tickStep n dt = (1 - (n.blendOutAlpha.update dt).getBlendedValue,
      { n with elapsedTime := n.elapsedTime + dt,
               blendOutAlpha := n.blendOutAlpha.update dt }) := by
  unfold tickStep tickRawAlpha
  rw [if_neg, if_neg, if_pos]
  · exact ⟨h3, h2⟩
  · rintro ⟨-, hle⟩
    simp only at hle
    linarith
  · rintro ⟨-, hlt⟩
    simp only at hlt
    linarith

theorem tickStep_fst_one (n : NotifyState) (dt : ℚ)
    (hin : n.blendTimeIn = 0) (hout : n.blendTimeOut = 0) :
    (tickStep n dt).1 = 1 := by
  unfold tickStep tickRawAlpha
  split_ifs with g1 g2 g3
  · exfalso
    have := g1.1
    simp only [hin] at this
    norm_num [KINDA_SMALL_NUMBER] at this
  · rfl
  · exfalso
    have := g3.1
    simp only [hout] at this
    norm_num [KINDA_SMALL_NUMBER] at this
  · rfl

theorem runTicks_nil (s : SysState) : runTicks s [] = s := rfl

theorem runTicks_cons (s : SysState) (d : ℚ) (t : List ℚ) :
    runTicks s (d :: t) = runTicks (NotifyTick s d) t := rfl

theorem runTicks_invariant (P : SysState → Prop)
    (h : ∀ s dt, P s → P (NotifyTick s dt)) :
    ∀ (ds : List ℚ) (s : SysState), P s → P (runTicks s ds) := by
  intro ds
  induction ds with
  | nil => intro s hs; exact hs
  | cons d t ih => intro s hs; exact ih _ (h _ _ hs)

theorem applyInstantBlendIn_enabled (n : NotifyState) (c : Capsule) :
    (applyInstantBlendIn n c).collisionEnabled = c.collisionEnabled := by
  unfold applyInstantBlendIn
  split_ifs <;> simp_all

theorem applyInstantBlendIn_profile (n : NotifyState) (c : Capsule) :
    (applyInstantBlendIn n c).collisionProfileName = c.collisionProfileName := by
  unfold applyInstantBlendIn
  split_ifs <;> simp_all

theorem applyInstantBlendIn_overlap (n : NotifyState) (c : Capsule) :
    (applyInstantBlendIn n c).generateOverlapEvents = c.generateOverlapEvents := by
  unfold applyInstantBlendIn
  split_ifs <;> simp_all

theorem applyInstantBlendIn_responses (n : NotifyState) (c : Capsule) :
    (applyInstantBlendIn n c).responses = c.responses := by
  unfold applyInstantBlendIn
  split_ifs <;> simp_all

theorem NotifyTick_inactive (s : SysState) (dt : ℚ)
    (h : s.notify.bHasValidOriginals = false ∨ s.notify.hasCapsule = false) :
    NotifyTick s dt = s := by
  unfold NotifyTick
  rw [if_pos h]

theorem NotifyTick_active (s : SysState) (dt : ℚ)
    (h1 : s.notify.bHasValidOriginals = true) (h2 : s.notify.hasCapsule = true) :
    NotifyTick s dt =
      { notify := (tickStep s.notify dt).2, capsule := lerpWrite (tickStep s.notify dt).2 (tickAlphaFinal s.notify dt) s.capsule } := by
  unfold NotifyTick
  rw [if_neg]
  simp [h1, h2]

theorem NotifyEnd_inactive (s : SysState)
    (h : s.notify.bHasValidOriginals = false ∨ s.notify.hasCapsule = false) :
    NotifyEnd s = s := by
  unfold NotifyEnd
  rw [if_pos h]

theorem NotifyEnd_active (s : SysState)
    (h1 : s.notify.bHasValidOriginals = true) (h2 : s.notify.hasCapsule = true) :
    NotifyEnd s =
      { notify := { s.notify with hasCapsule := false, bHasValidOriginals := false, elapsedTime := 0, notifyTotalDuration := 0 },
        capsule := restoreOriginalCollisionSettings s.notify.originalCapsuleSettings (restoreAttributes s.notify s.capsule) } := by
  unfold NotifyEnd
  rw [if_neg]
  simp [h1, h2]

theorem NotifyTick_notify_shape (s : SysState) (dt : ℚ) :
    (NotifyTick s dt).notify = s.notify ∨
    ∃ bi bo, (NotifyTick s dt).notify =
      { s.notify with elapsedTime := s.notify.elapsedTime + dt, blendInAlpha := bi, blendOutAlpha := bo } := by
  unfold NotifyTick
  split_ifs with g
  · left; rfl
  · right
    obtain ⟨bi, bo, h⟩ := tickStep_snd s.notify dt
    exact ⟨bi, bo, h⟩

theorem NotifyBegin_failure (s : SysState) (mv cf : Bool) (t : ℚ)
    (h : mv = false ∨ cf = false) :
    NotifyBegin s mv cf t =
      { s with notify := { s.notify with elapsedTime := 0, notifyTotalDuration := t, bHasValidOriginals := false, hasCapsule := false } } := by
  unfold NotifyBegin
  by_cases hm : mv = false
  · rw [if_pos hm]
  · rw [if_neg hm, if_pos]
    rcases h with h | h
    · exact absurd h hm
    · exact h

theorem NotifyBegin_success_originals (s : SysState) (t : ℚ) :
    (NotifyBegin s true true t).notify.originalRadius = s.capsule.radius ∧
    (NotifyBegin s true true t).notify.originalHalfHeight = s.capsule.halfHeight ∧
    (NotifyBegin s true true t).notify.originalScale = s.capsule.scale ∧
    (NotifyBegin s true true t).notify.originalShapeColor = s.capsule.shapeColor ∧
    (NotifyBegin s true true t).notify.originalLineThickness = s.notify.originalLineThickness := by
  simp [NotifyBegin]

theorem NotifyBegin_success_active (s : SysState) (t : ℚ) :
    (NotifyBegin s true true t).notify.bHasValidOriginals = true ∧
    (NotifyBegin s true true t).notify.hasCapsule = true := by
  simp [NotifyBegin]

theorem NotifyBegin_success_targets (s : SysState) (t : ℚ) :
    (NotifyBegin s true true t).notify.targetRadius =
      (if s.notify.bModifyRadius then s.notify.newRadius else s.capsule.radius) ∧
    (NotifyBegin s true true t).notify.targetHalfHeight =
      (if s.notify.bModifyHalfHeight then s.notify.newHalfHeight else s.capsule.halfHeight) ∧
    (NotifyBegin s true true t).notify.targetScale =
      (if s.notify.bModifyScale then s.notify.newScale else s.capsule.scale) ∧
    (NotifyBegin s true true t).notify.targetLineThickness =
      (if s.notify.bModifyLineThickness then s.notify.newLineThickness else s.notify.originalLineThickness) ∧
    (NotifyBegin s true true t).notify.targetShapeColor =
      (if s.notify.bModifyShapeColor then s.notify.newShapeColor else s.capsule.shapeColor) := by
  simp [NotifyBegin]

theorem NotifyBegin_success_config (s : SysState) (t : ℚ) :
    (NotifyBegin s true true t).notify.bModifyRadius = s.notify.bModifyRadius ∧
    (NotifyBegin s true true t).notify.bModifyHalfHeight = s.notify.bModifyHalfHeight ∧
    (NotifyBegin s true true t).notify.bModifyScale = s.notify.bModifyScale ∧
    (NotifyBegin s true true t).notify.bModifyLineThickness = s.notify.bModifyLineThickness ∧
    (NotifyBegin s true true t).notify.bModifyShapeColor = s.notify.bModifyShapeColor ∧
    (NotifyBegin s true true t).notify.blendTimeIn = s.notify.blendTimeIn ∧
    (NotifyBegin s true true t).notify.blendTimeOut = s.notify.blendTimeOut ∧
    (NotifyBegin s true true t).notify.easeCurve = s.notify.easeCurve ∧
    (NotifyBegin s true true t).notify.notifyTotalDuration = t ∧
    (NotifyBegin s true true t).notify.elapsedTime = 0 := by
  simp [NotifyBegin]

theorem NotifyBegin_success_snapshot (s : SysState) (t : ℚ) :
    (NotifyBegin s true true t).notify.originalCapsuleSettings.collisionEnabled = s.capsule.collisionEnabled ∧
    (NotifyBegin s true true t).notify.originalCapsuleSettings.collisionProfileName = s.capsule.collisionProfileName ∧
    (NotifyBegin s true true t).notify.originalCapsuleSettings.bGenerateOverlapEvents = s.capsule.generateOverlapEvents ∧
    (NotifyBegin s true true t).notify.originalCapsuleSettings.customResponses =
      (List.finRange NumCollisionChannels).map (fun ch => (ch, s.capsule.responses ch)) := by
  by_cases h : s.notify.blendTimeIn ≤ KINDA_SMALL_NUMBER
  · simp [NotifyBegin, h, saveOriginalCollisionSettings, applyInstantBlendIn_enabled,
      applyInstantBlendIn_profile, applyInstantBlendIn_overlap, applyInstantBlendIn_responses]
  · simp [NotifyBegin, h, saveOriginalCollisionSettings]

theorem NotifyBegin_success_capsule_collision (s : SysState) (t : ℚ) :
    (NotifyBegin s true true t).capsule.collisionEnabled =
      (applyCollisionSettings s.notify.capsuleCollisionSettings s.capsule).collisionEnabled ∧
    (NotifyBegin s true true t).capsule.collisionProfileName =
      (applyCollisionSettings s.notify.capsuleCollisionSettings s.capsule).collisionProfileName ∧
    (NotifyBegin s true true t).capsule.generateOverlapEvents =
      (applyCollisionSettings s.notify.capsuleCollisionSettings s.capsule).generateOverlapEvents ∧
    (NotifyBegin s true true t).capsule.responses =
      (applyCollisionSettings s.notify.capsuleCollisionSettings s.capsule).responses := by
  by_cases h : s.notify.blendTimeIn ≤ KINDA_SMALL_NUMBER
  · simp [NotifyBegin, h, applyCollisionSettings_enabled, applyCollisionSettings_profile,
      applyCollisionSettings_overlap, applyCollisionSettings_responses,
      applyInstantBlendIn_enabled, applyInstantBlendIn_profile,
      applyInstantBlendIn_overlap, applyInstantBlendIn_responses]
  · simp [NotifyBegin, h]

theorem NotifyBegin_pres_radius (s : SysState) (mv cf : Bool) (t : ℚ)
    (h : s.notify.bModifyRadius = false) :
    (NotifyBegin s mv cf t).notify.bModifyRadius = false ∧
    (NotifyBegin s mv cf t).capsule.radius = s.capsule.radius := by
  by_cases hm : mv = false
  · rw [NotifyBegin_failure s mv cf t (Or.inl hm)]
    exact ⟨h, rfl⟩
  · by_cases hc : cf = false
    · rw [NotifyBegin_failure s mv cf t (Or.inr hc)]
      exact ⟨h, rfl⟩
    · have hm' : mv = true := by revert hm; cases mv <;> simp
      have hc' : cf = true := by revert hc; cases cf <;> simp
      subst hm' hc'
      refine ⟨(NotifyBegin_success_config s t).1.trans h, ?_⟩
      by_cases hb : s.notify.blendTimeIn ≤ KINDA_SMALL_NUMBER
      · simp [NotifyBegin, hb, applyCollisionSettings_radius, applyInstantBlendIn_radius, h]
      · simp [NotifyBegin, hb, applyCollisionSettings_radius]

theorem NotifyTick_pres_radius (s : SysState) (dt : ℚ)
    (h : s.notify.bModifyRadius = false) :
    (NotifyTick s dt).notify.bModifyRadius = false ∧
    (NotifyTick s dt).capsule.radius = s.capsule.radius := by
  obtain ⟨bi, bo, hts⟩ := tickStep_snd s.notify dt
  unfold NotifyTick
  split_ifs with g
  · exact ⟨h, rfl⟩
  · constructor
    · simp [hts, h]
    · have hflag : (tickStep s.notify dt).2.bModifyRadius = false := by simp [hts, h]
      simp [lerpWrite_radius, hflag]

theorem NotifyEnd_pres_radius (s : SysState)
    (h : s.notify.bModifyRadius = false) :
    (NotifyEnd s).capsule.radius = s.capsule.radius := by
  unfold NotifyEnd
  split_ifs with g
  · rfl
  · simp [restoreCollision_radius, restoreAttributes_radius, h]

theorem NotifyBegin_pres_halfHeight (s : SysState) (mv cf : Bool) (t : ℚ)
    (h : s.notify.bModifyHalfHeight = false) :
    (NotifyBegin s mv cf t).notify.bModifyHalfHeight = false ∧
    (NotifyBegin s mv cf t).capsule.halfHeight = s.capsule.halfHeight := by
  by_cases hm : mv = false
  · rw [NotifyBegin_failure s mv cf t (Or.inl hm)]
    exact ⟨h, rfl⟩
  · by_cases hc : cf = false
    · rw [NotifyBegin_failure s mv cf t (Or.inr hc)]
      exact ⟨h, rfl⟩
    · have hm' : mv = true := by revert hm; cases mv <;> simp
      have hc' : cf = true := by revert hc; cases cf <;> simp
      subst hm' hc'
      refine ⟨(NotifyBegin_success_config s t).2.1.trans h, ?_⟩
      by_cases hb : s.notify.blendTimeIn ≤ KINDA_SMALL_NUMBER
      · simp [NotifyBegin, hb, applyCollisionSettings_halfHeight, applyInstantBlendIn_halfHeight, h]
      · simp [NotifyBegin, hb, applyCollisionSettings_halfHeight]

theorem NotifyTick_pres_halfHeight (s : SysState) (dt : ℚ)
    (h : s.notify.bModifyHalfHeight = false) :
    (NotifyTick s dt).notify.bModifyHalfHeight = false ∧
    (NotifyTick s dt).capsule.halfHeight = s.capsule.halfHeight := by
  obtain ⟨bi, bo, hts⟩ := tickStep_snd s.notify dt
  unfold NotifyTick
  split_ifs with g
  · exact ⟨h, rfl⟩
  · constructor
    · simp [hts, h]
    · have hflag : (tickStep s.notify dt).2.bModifyHalfHeight = false := by simp [hts, h]
      simp [lerpWrite_halfHeight, hflag]

theorem NotifyEnd_pres_halfHeight (s : SysState)
    (h : s.notify.bModifyHalfHeight = false) :
    (NotifyEnd s).capsule.halfHeight = s.capsule.halfHeight := by
  unfold NotifyEnd
  split_ifs with g
  · rfl
  · simp [restoreCollision_halfHeight, restoreAttributes_halfHeight, h]

theorem NotifyBegin_pres_scale (s : SysState) (mv cf : Bool) (t : ℚ)
    (h : s.notify.bModifyScale = false) :
    (NotifyBegin s mv cf t).notify.bModifyScale = false ∧
    (NotifyBegin s mv cf t).capsule.scale = s.capsule.scale := by
  by_cases hm : mv = false
  · rw [NotifyBegin_failure s mv cf t (Or.inl hm)]
    exact ⟨h, rfl⟩
  · by_cases hc : cf = false
    · rw [NotifyBegin_failure s mv cf t (Or.inr hc)]
      exact ⟨h, rfl⟩
    · have hm' : mv = true := by revert hm; cases mv <;> simp
      have hc' : cf = true := by revert hc; cases cf <;> simp
      subst hm' hc'
      refine ⟨(NotifyBegin_success_config s t).2.2.1.trans h, ?_⟩
      by_cases hb : s.notify.blendTimeIn ≤ KINDA_SMALL_NUMBER
      · simp [NotifyBegin, hb, applyCollisionSettings_scale, applyInstantBlendIn_scale, h]
      · simp [NotifyBegin, hb, applyCollisionSettings_scale]

theorem NotifyTick_pres_scale (s : SysState) (dt : ℚ)
    (h : s.notify.bModifyScale = false) :
    (NotifyTick s dt).notify.bModifyScale = false ∧
    (NotifyTick s dt).capsule.scale = s.capsule.scale := by
  obtain ⟨bi, bo, hts⟩ := tickStep_snd s.notify dt
  unfold NotifyTick
  split_ifs with g
  · exact ⟨h, rfl⟩
  · constructor
    · simp [hts, h]
    · have hflag : (tickStep s.notify dt).2.bModifyScale = false := by simp [hts, h]
      simp [lerpWrite_scale, hflag]

theorem NotifyEnd_pres_scale (s : SysState)
    (h : s.notify.bModifyScale = false) :
    (NotifyEnd s).capsule.scale = s.capsule.scale := by
  unfold NotifyEnd
  split_ifs with g
  · rfl
  · simp [restoreCollision_scale, restoreAttributes_scale, h]

theorem NotifyBegin_pres_lineThickness (s : SysState) (mv cf : Bool) (t : ℚ)
    (h : s.notify.bModifyLineThickness = false) :
    (NotifyBegin s mv cf t).notify.bModifyLineThickness = false ∧
    (NotifyBegin s mv cf t).capsule.lineThickness = s.capsule.lineThickness := by
  by_cases hm : mv = false
  · rw [NotifyBegin_failure s mv cf t (Or.inl hm)]
    exact ⟨h, rfl⟩
  · by_cases hc : cf = false
    · rw [NotifyBegin_failure s mv cf t (Or.inr hc)]
      exact ⟨h, rfl⟩
    · have hm' : mv = true := by revert hm; cases mv <;> simp
      have hc' : cf = true := by revert hc; cases cf <;> simp
      subst hm' hc'
      refine ⟨(NotifyBegin_success_config s t).2.2.2.1.trans h, ?_⟩
      by_cases hb : s.notify.blendTimeIn ≤ KINDA_SMALL_NUMBER
      · simp [NotifyBegin, hb, applyCollisionSettings_lineThickness, applyInstantBlendIn_lineThickness, h]
      · simp [NotifyBegin, hb, applyCollisionSettings_lineThickness]

theorem NotifyTick_pres_lineThickness (s : SysState) (dt : ℚ)
    (h : s.notify.bModifyLineThickness = false) :
    (NotifyTick s dt).notify.bModifyLineThickness = false ∧
    (NotifyTick s dt).capsule.lineThickness = s.capsule.lineThickness := by
  obtain ⟨bi, bo, hts⟩ := tickStep_snd s.notify dt
  unfold NotifyTick
  split_ifs with g
  · exact ⟨h, rfl⟩
  · constructor
    · simp [hts, h]
    · have hflag : (tickStep s.notify dt).2.bModifyLineThickness = false := by simp [hts, h]
      simp [lerpWrite_lineThickness, hflag]

theorem NotifyEnd_pres_lineThickness (s : SysState)
    (h : s.notify.bModifyLineThickness = false) :
    (NotifyEnd s).capsule.lineThickness = s.capsule.lineThickness := by
  unfold NotifyEnd
  split_ifs with g
  · rfl
  · simp [restoreCollision_lineThickness, restoreAttributes_lineThickness, h]

theorem NotifyBegin_pres_shapeColor (s : SysState) (mv cf : Bool) (t : ℚ)
    (h : s.notify.bModifyShapeColor = false) :
    (NotifyBegin s mv cf t).notify.bModifyShapeColor = false ∧
    (NotifyBegin s mv cf t).capsule.shapeColor = s.capsule.shapeColor := by
  by_cases hm : mv = false
  · rw [NotifyBegin_failure s mv cf t (Or.inl hm)]
    exact ⟨h, rfl⟩
  · by_cases hc : cf = false
    · rw [NotifyBegin_failure s mv cf t (Or.inr hc)]
      exact ⟨h, rfl⟩
    · have hm' : mv = true := by revert hm; cases mv <;> simp
      have hc' : cf = true := by revert hc; cases cf <;> simp
      subst hm' hc'
      refine ⟨(NotifyBegin_success_config s t).2.2.2.2.1.trans h, ?_⟩
      by_cases hb : s.notify.blendTimeIn ≤ KINDA_SMALL_NUMBER
      · simp [NotifyBegin, hb, applyCollisionSettings_shapeColor, applyInstantBlendIn_shapeColor, h]
      · simp [NotifyBegin, hb, applyCollisionSettings_shapeColor]

theorem NotifyTick_pres_shapeColor (s : SysState) (dt : ℚ)
    (h : s.notify.bModifyShapeColor = false) :
    (NotifyTick s dt).notify.bModifyShapeColor = false ∧
    (NotifyTick s dt).capsule.shapeColor = s.capsule.shapeColor := by
  obtain ⟨bi, bo, hts⟩ := tickStep_snd s.notify dt
  unfold NotifyTick
  split_ifs with g
  · exact ⟨h, rfl⟩
  · constructor
    · simp [hts, h]
    · have hflag : (tickStep s.notify dt).2.bModifyShapeColor = false := by simp [hts, h]
      simp [lerpWrite_shapeColor, hflag]

theorem NotifyEnd_pres_shapeColor (s : SysState)
    (h : s.notify.bModifyShapeColor = false) :
    (NotifyEnd s).capsule.shapeColor = s.capsule.shapeColor := by
  unfold NotifyEnd
  split_ifs with g
  · rfl
  · simp [restoreCollision_shapeColor, restoreAttributes_shapeColor, h]

theorem lerpQ_one (a b : ℚ) : lerpQ a b 1 = b := by
  unfold lerpQ
  ring

theorem Vec3_lerp_one (a b : Vec3) : Vec3.lerp a b 1 = b := by
  cases b
  simp [Vec3.lerp, lerpQ_one]

theorem LinearColor_lerp_one (a b : LinearColor) : LinearColor.lerp a b 1 = b := by
  cases b
  simp [LinearColor.lerp, lerpQ_one]

theorem gbv_linear_mono (b1 b2 : AlphaBlend) (hT : b1.blendTime = b2.blendTime)
    (h1 : b1.option = BlendOption.linear) (h2 : b2.option = BlendOption.linear)
    (hacc : b1.accumulated ≤ b2.accumulated) :
    b1.getBlendedValue ≤ b2.getBlendedValue := by
  obtain ⟨T1, o1, a1⟩ := b1
  obtain ⟨T2, o2, a2⟩ := b2
  simp only at hT h1 h2 hacc
  subst hT h1 h2
  unfold AlphaBlend.getBlendedValue
  simp only [BlendOption.linear]
  split_ifs with hle
  · exact le_rfl
  · have hT : (0 : ℚ) < T1 := lt_of_not_ge hle
    exact clamp01_mono ((div_le_div_iff_of_pos_right hT).mpr hacc)

/-- The instant-snap part of a successful `NotifyBegin` with an instant
blend-in: each modified attribute already equals its resolved target. -/
theorem begin_instant_attrs (s : SysState) (total : ℚ)
    (h : s.notify.blendTimeIn ≤ KINDA_SMALL_NUMBER) :
    (s.notify.bModifyRadius = true →
      (NotifyBegin s true true total).capsule.radius =
        (NotifyBegin s true true total).notify.targetRadius) ∧
    (s.notify.bModifyHalfHeight = true →
      (NotifyBegin s true true total).capsule.halfHeight =
        (NotifyBegin s true true total).notify.targetHalfHeight) ∧
    (s.notify.bModifyScale = true →
      (NotifyBegin s true true total).capsule.scale =
        (NotifyBegin s true true total).notify.targetScale) ∧
    (s.notify.bModifyLineThickness = true →
      (NotifyBegin s true true total).capsule.lineThickness =
        (NotifyBegin s true true total).notify.targetLineThickness) ∧
    (s.notify.bModifyShapeColor = true →
      (NotifyBegin s true true total).capsule.shapeColor =
        (NotifyBegin s true true total).notify.targetShapeColor) := by
  refine ⟨?_, ?_, ?_, ?_, ?_⟩ <;> intro hf <;>
    simp [NotifyBegin, h, hf, applyCollisionSettings_radius,
      applyCollisionSettings_halfHeight, applyCollisionSettings_scale,
      applyCollisionSettings_lineThickness, applyCollisionSettings_shapeColor,
      applyInstantBlendIn_radius, applyInstantBlendIn_halfHeight,
      applyInstantBlendIn_scale, applyInstantBlendIn_lineThickness,
      applyInstantBlendIn_shapeColor]

/-! ### Concrete example states -/

/-- A collision-settings bundle with every override flag cleared. -/
def baseCollisionCfg : CollisionSettings :=
  ⟨CollisionEnabledType.QueryAndPhysics, false, false, "Pawn", false, false, false, [], false⟩

/-- A concrete capsule. -/
def baseCap : Capsule :=
  ⟨34, 88, ⟨1, 1, 1⟩, 0, ⟨0, 0, 0, 1⟩, CollisionEnabledType.QueryAndPhysics, "Pawn", true,
   fun _ => CollisionResponse.ECR_Block⟩

/-- A concrete notify state: every modify flag cleared, linear blend shapes,
no ease curve, inactive. -/
def baseNotify : NotifyState where
  bModifyRadius := false
  newRadius := 0
  bModifyHalfHeight := false
  newHalfHeight := 0
  bModifyScale := false
  newScale := ⟨1, 1, 1⟩
  bModifyLineThickness := false
  newLineThickness := 0
  bModifyShapeColor := false
  newShapeColor := ⟨1, 1, 1, 1⟩
  blendTimeIn := 0
  blendTimeOut := 0
  blendOptionIn := BlendOption.linear
  blendOptionOut := BlendOption.linear
  easeCurve := none
  capsuleCollisionSettings := baseCollisionCfg
  bDebug := false
  elapsedTime := 0
  notifyTotalDuration := 0
  bHasValidOriginals := false
  hasCapsule := false
  originalRadius := 0
  originalHalfHeight := 0
  originalScale := ⟨1, 1, 1⟩
  originalLineThickness := 0
  originalShapeColor := ⟨0, 0, 0, 1⟩
  targetRadius := 0
  targetHalfHeight := 0
  targetScale := ⟨1, 1, 1⟩
  targetLineThickness := 0
  targetShapeColor := ⟨0, 0, 0, 1⟩
  blendInAlpha := ⟨0, BlendOption.linear, 0⟩
  blendOutAlpha := ⟨0, BlendOption.linear, 0⟩
  originalCapsuleSettings := baseCollisionCfg

/-! ### Claims -/

/-- C3: if `Begin` is called with a null mesh component or the capsule
locator resolves no component, the session remains inactive and `Begin`
performs no mutation of the target; and whenever the session is inactive,
every `Tick` and `End` call returns the state unchanged. -/
theorem C3_inactive_noop (s : SysState) (mv cf : Bool) (total dt : ℚ) :
    ((mv = false ∨ cf = false) →
      (NotifyBegin s mv cf total).capsule = s.capsule ∧
      (NotifyBegin s mv cf total).notify.bHasValidOriginals = false ∧
      (NotifyBegin s mv cf total).notify.hasCapsule = false) ∧
    ((s.notify.bHasValidOriginals = false ∨ s.notify.hasCapsule = false) →
      NotifyTick s dt = s ∧ NotifyEnd s = s) := by
  constructor
  · intro h
    rw [NotifyBegin_failure s mv cf total h]
    exact ⟨rfl, rfl, rfl⟩
  · intro h
    exact ⟨NotifyTick_inactive s dt h, NotifyEnd_inactive s h⟩

/-- Witness for C3 at a concrete inactive state and a null mesh. -/
theorem C3_inactive_noop_witness :
    (NotifyBegin ⟨baseNotify, baseCap⟩ false true 1).capsule = baseCap ∧
    NotifyTick ⟨baseNotify, baseCap⟩ 1 = ⟨baseNotify, baseCap⟩ ∧
    NotifyEnd ⟨baseNotify, baseCap⟩ = ⟨baseNotify, baseCap⟩ := by
  have h := C3_inactive_noop ⟨baseNotify, baseCap⟩ false true 1 1
  exact ⟨(h.1 (Or.inl rfl)).1, (h.2 (Or.inl rfl)).1, (h.2 (Or.inl rfl)).2⟩

/-- C10: a successful `Begin` takes the collision snapshot from the
target's pre-`Begin` collision sub-fields and leaves the target's collision
sub-fields as `ApplyCollisionSettings` of the configured overrides — for
every state, hence for instant and non-instant blend-ins and for any
combination of attribute modify flags, without any `Tick`. -/
theorem C10_collision_at_begin (s : SysState) (total : ℚ) :
    ((NotifyBegin s true true total).notify.originalCapsuleSettings.collisionEnabled = s.capsule.collisionEnabled ∧
     (NotifyBegin s true true total).notify.originalCapsuleSettings.collisionProfileName = s.capsule.collisionProfileName ∧
     (NotifyBegin s true true total).notify.originalCapsuleSettings.bGenerateOverlapEvents = s.capsule.generateOverlapEvents ∧
     (NotifyBegin s true true total).notify.originalCapsuleSettings.customResponses =
       (List.finRange NumCollisionChannels).map (fun ch => (ch, s.capsule.responses ch))) ∧
    ((NotifyBegin s true true total).capsule.collisionEnabled =
       (applyCollisionSettings s.notify.capsuleCollisionSettings s.capsule).collisionEnabled ∧
     (NotifyBegin s true true total).capsule.collisionProfileName =
       (applyCollisionSettings s.notify.capsuleCollisionSettings s.capsule).collisionProfileName ∧
     (NotifyBegin s true true total).capsule.generateOverlapEvents =
       (applyCollisionSettings s.notify.capsuleCollisionSettings s.capsule).generateOverlapEvents ∧
     (NotifyBegin s true true total).capsule.responses =
       (applyCollisionSettings s.notify.capsuleCollisionSettings s.capsule).responses) :=
  ⟨NotifyBegin_success_snapshot s total, NotifyBegin_success_capsule_collision s total⟩

/-- C4: with an instant blend-in (duration at most `KINDA_SMALL_NUMBER`),
immediately after a successful `Begin` and before any `Tick`, every
attribute with its modify flag set already holds its resolved target value
on the target. -/
theorem C4_instant_blend_snapshot (s : SysState) (total : ℚ)
    (h : s.notify.blendTimeIn ≤ KINDA_SMALL_NUMBER) :
    (s.notify.bModifyRadius = true →
      (NotifyBegin s true true total).capsule.radius =
        (NotifyBegin s true true total).notify.targetRadius) ∧
    (s.notify.bModifyHalfHeight = true →
      (NotifyBegin s true true total).capsule.halfHeight =
        (NotifyBegin s true true total).notify.targetHalfHeight) ∧
    (s.notify.bModifyScale = true →
      (NotifyBegin s true true total).capsule.scale =
        (NotifyBegin s true true total).notify.targetScale) ∧
    (s.notify.bModifyLineThickness = true →
      (NotifyBegin s true true total).capsule.lineThickness =
        (NotifyBegin s true true total).notify.targetLineThickness) ∧
    (s.notify.bModifyShapeColor = true →
      (NotifyBegin s true true total).capsule.shapeColor =
        (NotifyBegin s true true total).notify.targetShapeColor) :=
  begin_instant_attrs s total h

/-- The C4 witness configuration: radius modified, zero blend-in. -/
def c4w : SysState :=
  ⟨{ baseNotify with bModifyRadius := true, newRadius := 50 }, baseCap⟩

/-- Witness for C4 at a concrete configuration. -/
theorem C4_instant_blend_snapshot_witness :
    c4w.notify.blendTimeIn ≤ KINDA_SMALL_NUMBER ∧
    (NotifyBegin c4w true true 1).capsule.radius =
      (NotifyBegin c4w true true 1).notify.targetRadius := by
  have hle : c4w.notify.blendTimeIn ≤ KINDA_SMALL_NUMBER := by
    norm_num [c4w, baseNotify, KINDA_SMALL_NUMBER]
  exact ⟨hle, (C4_instant_blend_snapshot c4w 1 hle).1 rfl⟩

/-- C7: `ApplyCollisionSettings` writes only the collision sub-fields whose
override flag is set (with force-query-only overriding the configured
enabled-mode), while `RestoreOriginalCollisionSettings` of a
`SaveOriginalCollisionSettings` snapshot writes all four sub-fields back to
the snapshotted values irrespective of the configured override flags. -/
theorem C7_collision_scoping (cfg : CollisionSettings) (c c0 c1 : Capsule) :
    (cfg.bOverrideCollisionEnabled = false →
      (applyCollisionSettings cfg c).collisionEnabled = c.collisionEnabled) ∧
    (cfg.bOverrideCollisionEnabled = true →
      (applyCollisionSettings cfg c).collisionEnabled =
        (if cfg.bForceQueryOnly then CollisionEnabledType.QueryOnly else cfg.collisionEnabled)) ∧
    (cfg.bOverrideCollisionProfileName = false →
      (applyCollisionSettings cfg c).collisionProfileName = c.collisionProfileName) ∧
    (cfg.bOverrideCollisionProfileName = true →
      (applyCollisionSettings cfg c).collisionProfileName = cfg.collisionProfileName) ∧
    (cfg.bOverrideGenerateOverlapEvents = false →
      (applyCollisionSettings cfg c).generateOverlapEvents = c.generateOverlapEvents) ∧
    (cfg.bOverrideGenerateOverlapEvents = true →
      (applyCollisionSettings cfg c).generateOverlapEvents = cfg.bGenerateOverlapEvents) ∧
    (cfg.bOverrideCustomResponses = false →
      (applyCollisionSettings cfg c).responses = c.responses) ∧
    ((restoreOriginalCollisionSettings (saveOriginalCollisionSettings c0) c1).collisionEnabled
       = c0.collisionEnabled ∧
     (restoreOriginalCollisionSettings (saveOriginalCollisionSettings c0) c1).collisionProfileName
       = c0.collisionProfileName ∧
     (restoreOriginalCollisionSettings (saveOriginalCollisionSettings c0) c1).generateOverlapEvents
       = c0.generateOverlapEvents ∧
     (restoreOriginalCollisionSettings (saveOriginalCollisionSettings c0) c1).responses
       = c0.responses) := by
  refine ⟨?_, ?_, ?_, ?_, ?_, ?_, ?_, ?_, ?_, ?_, restore_save_responses c0 c1⟩ <;>
    first
      | (intro hf
         simp [applyCollisionSettings_enabled, applyCollisionSettings_profile,
           applyCollisionSettings_overlap, applyCollisionSettings_responses, hf])
      | simp [restoreCollision_enabled, restoreCollision_profile, restoreCollision_overlap,
          saveOriginalCollisionSettings]

/-- Witness for C7 at a concrete configuration and capsule. -/
theorem C7_collision_scoping_witness :
    (applyCollisionSettings baseCollisionCfg baseCap).collisionEnabled = baseCap.collisionEnabled ∧
    (restoreOriginalCollisionSettings (saveOriginalCollisionSettings baseCap) baseCap).responses
      = baseCap.responses := by
  have h := C7_collision_scoping baseCollisionCfg baseCap baseCap baseCap
  exact ⟨h.1 rfl, h.2.2.2.2.2.2.2.2.2.2⟩

/-- C9: on a `Tick` whose accumulated elapsed time equals exactly
`totalDuration - blendOutDuration` (with elapsed at or past the blend-in
duration), the hold branch wins the top-to-bottom evaluation: the raw alpha
is 1 and the blend-out evaluator is not advanced. -/
theorem C9_hold_tiebreak (s : SysState) (dt : ℚ)
    (h1 : s.notify.bHasValidOriginals = true) (h2 : s.notify.hasCapsule = true)
    (h3 : s.notify.elapsedTime + dt = s.notify.notifyTotalDuration - s.notify.blendTimeOut)
    (h4 : s.notify.blendTimeIn ≤ s.notify.elapsedTime + dt) :
    tickRawClamped s.notify dt = 1 ∧
    (NotifyTick s dt).notify.blendOutAlpha = s.notify.blendOutAlpha := by
  have hts := tickStep_hold s.notify dt h4 (le_of_eq h3)
  constructor
  · unfold tickRawClamped
    rw [hts]
    exact clamp01_one
  · rw [NotifyTick_active s dt h1 h2]
    simp [hts]

/-- The C9 witness state: active session exactly at the hold/blend-out
boundary after the next half-second tick. -/
def c9w : SysState :=
  ⟨{ baseNotify with
      bHasValidOriginals := true
      hasCapsule := true
      blendTimeIn := 1/2
      blendTimeOut := 1/2
      notifyTotalDuration := 2
      elapsedTime := 1 }, baseCap⟩

/-- Witness for C9 at the concrete boundary state. -/
theorem C9_hold_tiebreak_witness :
    tickRawClamped c9w.notify (1/2) = 1 ∧
    (NotifyTick c9w (1/2)).notify.blendOutAlpha = c9w.notify.blendOutAlpha :=
  C9_hold_tiebreak c9w (1/2) rfl rfl (by norm_num [c9w, baseNotify])
    (by norm_num [c9w, baseNotify])

theorem tickRawClamped_in (n : NotifyState) (dt : ℚ)
    (hb : KINDA_SMALL_NUMBER < n.blendTimeIn)
    (hlt : n.elapsedTime + dt < n.blendTimeIn) :
    tickRawClamped n dt = clamp01 (n.blendInAlpha.update dt).getBlendedValue := by
  unfold tickRawClamped
  rw [tickStep_in n dt hb hlt]

theorem tickRawClamped_out (n : NotifyState) (dt : ℚ)
    (h1 : n.blendTimeIn ≤ n.elapsedTime + dt)
    (h2 : n.notifyTotalDuration - n.blendTimeOut < n.elapsedTime + dt)
    (h3 : KINDA_SMALL_NUMBER < n.blendTimeOut) :
    tickRawClamped n dt = clamp01 (1 - (n.blendOutAlpha.update dt).getBlendedValue) := by
  unfold tickRawClamped
  rw [tickStep_out n dt h1 h2 h3]

/-- C8: with linear blend shapes for both evaluators and no ease curve,
over ticks with non-negative frame deltas the clamped raw alpha is
non-decreasing across two successive ticks inside the blend-in window,
equals exactly 1 on a tick landing in the hold window, and is
non-increasing across two successive ticks inside the blend-out window. -/
theorem C8_alpha_monotonicity (s : SysState) (dt1 dt2 : ℚ)
    (hA : s.notify.bHasValidOriginals = true) (hC : s.notify.hasCapsule = true)
    (hIn : s.notify.blendInAlpha.option = BlendOption.linear)
    (hOut : s.notify.blendOutAlpha.option = BlendOption.linear)
    (hE : s.notify.easeCurve = none)
    (hd1 : 0 ≤ dt1) (hd2 : 0 ≤ dt2) :
    (KINDA_SMALL_NUMBER < s.notify.blendTimeIn →
      s.notify.elapsedTime + dt1 + dt2 < s.notify.blendTimeIn →
      tickRawClamped s.notify dt1 ≤ tickRawClamped (NotifyTick s dt1).notify dt2) ∧
    (s.notify.blendTimeIn ≤ s.notify.elapsedTime + dt1 →
      s.notify.elapsedTime + dt1 ≤ s.notify.notifyTotalDuration - s.notify.blendTimeOut →
      tickRawClamped s.notify dt1 = 1) ∧
    (KINDA_SMALL_NUMBER < s.notify.blendTimeOut →
      s.notify.blendTimeIn ≤ s.notify.elapsedTime + dt1 →
      s.notify.notifyTotalDuration - s.notify.blendTimeOut < s.notify.elapsedTime + dt1 →
      tickRawClamped (NotifyTick s dt1).notify dt2 ≤ tickRawClamped s.notify dt1) := by
  refine ⟨?_, ?_, ?_⟩
  · intro hb hlt2
    have hlt1 : s.notify.elapsedTime + dt1 < s.notify.blendTimeIn := by linarith
    have hnot : (NotifyTick s dt1).notify =
        { s.notify with elapsedTime := s.notify.elapsedTime + dt1, blendInAlpha := s.notify.blendInAlpha.update dt1 } := by
      rw [NotifyTick_active s dt1 hA hC]
      simp [tickStep_in s.notify dt1 hb hlt1]
    have c1 : KINDA_SMALL_NUMBER < (NotifyTick s dt1).notify.blendTimeIn := by
      rw [hnot]
      simpa using hb
    have c2 : (NotifyTick s dt1).notify.elapsedTime + dt2 <
        (NotifyTick s dt1).notify.blendTimeIn := by
      rw [hnot]
      show s.notify.elapsedTime + dt1 + dt2 < s.notify.blendTimeIn
      linarith
    rw [tickRawClamped_in s.notify dt1 hb hlt1,
      tickRawClamped_in (NotifyTick s dt1).notify dt2 c1 c2, hnot]
    refine clamp01_mono (gbv_linear_mono _ _ rfl ?_ ?_ ?_)
    · simpa [AlphaBlend.update] using hIn
    · simpa [AlphaBlend.update] using hIn
    · simp only [AlphaBlend.update]
      show s.notify.blendInAlpha.accumulated + dt1 ≤
        s.notify.blendInAlpha.accumulated + dt1 + dt2
      linarith
  · intro hge hle
    unfold tickRawClamped
    rw [tickStep_hold s.notify dt1 hge hle]
    exact clamp01_one
  · intro hbo hin1 hgt1
    have hnot : (NotifyTick s dt1).notify =
        { s.notify with elapsedTime := s.notify.elapsedTime + dt1, blendOutAlpha := s.notify.blendOutAlpha.update dt1 } := by
      rw [NotifyTick_active s dt1 hA hC]
      simp [tickStep_out s.notify dt1 hin1 hgt1 hbo]
    have c1 : (NotifyTick s dt1).notify.blendTimeIn ≤
        (NotifyTick s dt1).notify.elapsedTime + dt2 := by
      rw [hnot]
      show s.notify.blendTimeIn ≤ s.notify.elapsedTime + dt1 + dt2
      linarith
    have c2 : (NotifyTick s dt1).notify.notifyTotalDuration -
        (NotifyTick s dt1).notify.blendTimeOut <
        (NotifyTick s dt1).notify.elapsedTime + dt2 := by
      rw [hnot]
      show s.notify.notifyTotalDuration - s.notify.blendTimeOut <
        s.notify.elapsedTime + dt1 + dt2
      linarith
    have c3 : KINDA_SMALL_NUMBER < (NotifyTick s dt1).notify.blendTimeOut := by
      rw [hnot]
      simpa using hbo
    rw [tickRawClamped_out s.notify dt1 hin1 hgt1 hbo,
      tickRawClamped_out (NotifyTick s dt1).notify dt2 c1 c2 c3]
    have hmono : (s.notify.blendOutAlpha.update dt1).getBlendedValue ≤
        ((NotifyTick s dt1).notify.blendOutAlpha.update dt2).getBlendedValue := by
      apply gbv_linear_mono
      · rw [hnot]
        simp [AlphaBlend.update]
      · simpa [AlphaBlend.update] using hOut
      · rw [hnot]
        simpa [AlphaBlend.update] using hOut
      · rw [hnot]
        simp only [AlphaBlend.update]
        show s.notify.blendOutAlpha.accumulated + dt1 ≤
          s.notify.blendOutAlpha.accumulated + dt1 + dt2
        linarith
    exact clamp01_mono (sub_le_sub_left hmono 1)

/-- The C8 witness state: active session at the start of a half-second
linear blend-in. -/
def c8w : SysState :=
  ⟨{ baseNotify with
      bHasValidOriginals := true
      hasCapsule := true
      blendTimeIn := 1/2
      blendTimeOut := 1/2
      notifyTotalDuration := 2
      elapsedTime := 0
      blendInAlpha := ⟨1/2, BlendOption.linear, 0⟩
      blendOutAlpha := ⟨1/2, BlendOption.linear, 0⟩ }, baseCap⟩

/-- Witness for C8: two successive blend-in ticks of 0.1 s from the
concrete state have non-decreasing raw alpha. -/
theorem C8_alpha_monotonicity_witness :
    tickRawClamped c8w.notify (1/10) ≤ tickRawClamped (NotifyTick c8w (1/10)).notify (1/10) :=
  (C8_alpha_monotonicity c8w (1/10) (1/10) rfl rfl rfl rfl rfl (by norm_num) (by norm_num)).1
    (by norm_num [c8w, baseNotify, KINDA_SMALL_NUMBER])
    (by norm_num [c8w, baseNotify])

/-- C2: an attribute whose modify flag is false is never written during the
lifecycle: its value on the target after `Begin` plus any prefix of the
tick sequence, and after `End`, equals its pre-`Begin` value. -/
theorem C2_nonmodified_isolation (s : SysState) (mv cf : Bool) (total : ℚ)
    (ds pre suf : List ℚ) (hsplit : ds = pre ++ suf) :
    (s.notify.bModifyRadius = false →
      (runTicks (NotifyBegin s mv cf total) pre).capsule.radius = s.capsule.radius ∧
      (NotifyEnd (runTicks (NotifyBegin s mv cf total) ds)).capsule.radius = s.capsule.radius) ∧
    (s.notify.bModifyHalfHeight = false →
      (runTicks (NotifyBegin s mv cf total) pre).capsule.halfHeight = s.capsule.halfHeight ∧
      (NotifyEnd (runTicks (NotifyBegin s mv cf total) ds)).capsule.halfHeight = s.capsule.halfHeight) ∧
    (s.notify.bModifyScale = false →
      (runTicks (NotifyBegin s mv cf total) pre).capsule.scale = s.capsule.scale ∧
      (NotifyEnd (runTicks (NotifyBegin s mv cf total) ds)).capsule.scale = s.capsule.scale) ∧
    (s.notify.bModifyLineThickness = false →
      (runTicks (NotifyBegin s mv cf total) pre).capsule.lineThickness = s.capsule.lineThickness ∧
      (NotifyEnd (runTicks (NotifyBegin s mv cf total) ds)).capsule.lineThickness = s.capsule.lineThickness) ∧
    (s.notify.bModifyShapeColor = false →
      (runTicks (NotifyBegin s mv cf total) pre).capsule.shapeColor = s.capsule.shapeColor ∧
      (NotifyEnd (runTicks (NotifyBegin s mv cf total) ds)).capsule.shapeColor = s.capsule.shapeColor) := by
  refine ⟨fun hf => ?_, fun hf => ?_, fun hf => ?_, fun hf => ?_, fun hf => ?_⟩
  · have inv := runTicks_invariant
      (fun st => st.notify.bModifyRadius = false ∧ st.capsule.radius = s.capsule.radius)
      (fun st dt h => by
        obtain ⟨p1, p2⟩ := NotifyTick_pres_radius st dt h.1
        exact ⟨p1, p2.trans h.2⟩)
    obtain ⟨b1, b2⟩ := NotifyBegin_pres_radius s mv cf total hf
    have hpre := inv pre _ ⟨b1, b2⟩
    have hds := inv ds _ ⟨b1, b2⟩
    exact ⟨hpre.2, (NotifyEnd_pres_radius _ hds.1).trans hds.2⟩
  · have inv := runTicks_invariant
      (fun st => st.notify.bModifyHalfHeight = false ∧ st.capsule.halfHeight = s.capsule.halfHeight)
      (fun st dt h => by
        obtain ⟨p1, p2⟩ := NotifyTick_pres_halfHeight st dt h.1
        exact ⟨p1, p2.trans h.2⟩)
    obtain ⟨b1, b2⟩ := NotifyBegin_pres_halfHeight s mv cf total hf
    have hpre := inv pre _ ⟨b1, b2⟩
    have hds := inv ds _ ⟨b1, b2⟩
    exact ⟨hpre.2, (NotifyEnd_pres_halfHeight _ hds.1).trans hds.2⟩
  · have inv := runTicks_invariant
      (fun st => st.notify.bModifyScale = false ∧ st.capsule.scale = s.capsule.scale)
      (fun st dt h => by
        obtain ⟨p1, p2⟩ := NotifyTick_pres_scale st dt h.1
        exact ⟨p1, p2.trans h.2⟩)
    obtain ⟨b1, b2⟩ := NotifyBegin_pres_scale s mv cf total hf
    have hpre := inv pre _ ⟨b1, b2⟩
    have hds := inv ds _ ⟨b1, b2⟩
    exact ⟨hpre.2, (NotifyEnd_pres_scale _ hds.1).trans hds.2⟩
  · have inv := runTicks_invariant
      (fun st => st.notify.bModifyLineThickness = false ∧ st.capsule.lineThickness = s.capsule.lineThickness)
      (fun st dt h => by
        obtain ⟨p1, p2⟩ := NotifyTick_pres_lineThickness st dt h.1
        exact ⟨p1, p2.trans h.2⟩)
    obtain ⟨b1, b2⟩ := NotifyBegin_pres_lineThickness s mv cf total hf
    have hpre := inv pre _ ⟨b1, b2⟩
    have hds := inv ds _ ⟨b1, b2⟩
    exact ⟨hpre.2, (NotifyEnd_pres_lineThickness _ hds.1).trans hds.2⟩
  · have inv := runTicks_invariant
      (fun st => st.notify.bModifyShapeColor = false ∧ st.capsule.shapeColor = s.capsule.shapeColor)
      (fun st dt h => by
        obtain ⟨p1, p2⟩ := NotifyTick_pres_shapeColor st dt h.1
        exact ⟨p1, p2.trans h.2⟩)
    obtain ⟨b1, b2⟩ := NotifyBegin_pres_shapeColor s mv cf total hf
    have hpre := inv pre _ ⟨b1, b2⟩
    have hds := inv ds _ ⟨b1, b2⟩
    exact ⟨hpre.2, (NotifyEnd_pres_shapeColor _ hds.1).trans hds.2⟩

/-- Witness for C2 on a concrete one-tick session with every flag off. -/
theorem C2_nonmodified_isolation_witness :
    (runTicks (NotifyBegin ⟨baseNotify, baseCap⟩ true true 2) [1]).capsule.radius = baseCap.radius ∧
    (NotifyEnd (runTicks (NotifyBegin ⟨baseNotify, baseCap⟩ true true 2) [1])).capsule.radius = baseCap.radius :=
  (C2_nonmodified_isolation ⟨baseNotify, baseCap⟩ true true 2 [1] [1] [] (by simp)).1 rfl

theorem tickAlphaFinal_eq_one (n : NotifyState) (dt : ℚ)
    (hbin : n.blendTimeIn = 0) (hbout : n.blendTimeOut = 0)
    (heas : n.easeCurve = none) :
    tickAlphaFinal n dt = 1 := by
  unfold tickAlphaFinal
  rw [heas]
  show tickRawClamped n dt = 1
  unfold tickRawClamped
  rw [tickStep_fst_one n dt hbin hbout]
  exact clamp01_one

/-- Invariant for the zero-blend scenario: the notify members still agree
with the post-`Begin` state `base` except for the tick-advanced runtime
fields, and every modified attribute sits at its resolved target. -/
def holdsAtTargets (base st : SysState) : Prop :=
  (∃ e bi bo, st.notify = { base.notify with elapsedTime := e, blendInAlpha := bi, blendOutAlpha := bo }) ∧
  (base.notify.bModifyRadius = true → st.capsule.radius = base.notify.targetRadius) ∧
  (base.notify.bModifyHalfHeight = true → st.capsule.halfHeight = base.notify.targetHalfHeight) ∧
  (base.notify.bModifyScale = true → st.capsule.scale = base.notify.targetScale) ∧
  (base.notify.bModifyLineThickness = true → st.capsule.lineThickness = base.notify.targetLineThickness) ∧
  (base.notify.bModifyShapeColor = true → st.capsule.shapeColor = base.notify.targetShapeColor)

theorem holdsAtTargets_step (base st : SysState) (dt : ℚ)
    (hA : base.notify.bHasValidOriginals = true) (hC : base.notify.hasCapsule = true)
    (hbin : base.notify.blendTimeIn = 0) (hbout : base.notify.blendTimeOut = 0)
    (heas : base.notify.easeCurve = none)
    (h : holdsAtTargets base st) : holdsAtTargets base (NotifyTick st dt) := by
  obtain ⟨⟨e, bi, bo, hn⟩, hr, hh, hsc, hlt, hcol⟩ := h
  have hA' : st.notify.bHasValidOriginals = true := by rw [hn]; exact hA
  have hC' : st.notify.hasCapsule = true := by rw [hn]; exact hC
  have hbin' : st.notify.blendTimeIn = 0 := by rw [hn]; exact hbin
  have hbout' : st.notify.blendTimeOut = 0 := by rw [hn]; exact hbout
  have heas' : st.notify.easeCurve = none := by rw [hn]; exact heas
  have halpha : tickAlphaFinal st.notify dt = 1 :=
    tickAlphaFinal_eq_one st.notify dt hbin' hbout' heas'
  obtain ⟨bi2, bo2, hsnd⟩ := tickStep_snd st.notify dt
  rw [NotifyTick_active st dt hA' hC']
  constructor
  · refine ⟨st.notify.elapsedTime + dt, bi2, bo2, ?_⟩
    show (tickStep st.notify dt).2 = _
    rw [hsnd, hn]
  · have hflags : (tickStep st.notify dt).2.bModifyRadius = base.notify.bModifyRadius ∧
        (tickStep st.notify dt).2.bModifyHalfHeight = base.notify.bModifyHalfHeight ∧
        (tickStep st.notify dt).2.bModifyScale = base.notify.bModifyScale ∧
        (tickStep st.notify dt).2.bModifyLineThickness = base.notify.bModifyLineThickness ∧
        (tickStep st.notify dt).2.bModifyShapeColor = base.notify.bModifyShapeColor := by
      rw [hsnd, hn]
      exact ⟨rfl, rfl, rfl, rfl, rfl⟩
    have htars : (tickStep st.notify dt).2.targetRadius = base.notify.targetRadius ∧
        (tickStep st.notify dt).2.targetHalfHeight = base.notify.targetHalfHeight ∧
        (tickStep st.notify dt).2.targetScale = base.notify.targetScale ∧
        (tickStep st.notify dt).2.targetLineThickness = base.notify.targetLineThickness ∧
        (tickStep st.notify dt).2.targetShapeColor = base.notify.targetShapeColor := by
      rw [hsnd, hn]
      exact ⟨rfl, rfl, rfl, rfl, rfl⟩
    refine ⟨fun hf => ?_, fun hf => ?_, fun hf => ?_, fun hf => ?_, fun hf => ?_⟩
    · show (lerpWrite (tickStep st.notify dt).2 (tickAlphaFinal st.notify dt) st.capsule).radius = _
      rw [halpha, lerpWrite_radius]
      simp [hflags.1, hf, lerpQ_one, htars.1]
    · show (lerpWrite (tickStep st.notify dt).2 (tickAlphaFinal st.notify dt) st.capsule).halfHeight = _
      rw [halpha, lerpWrite_halfHeight]
      simp [hflags.2.1, hf, lerpQ_one, htars.2.1]
    · show (lerpWrite (tickStep st.notify dt).2 (tickAlphaFinal st.notify dt) st.capsule).scale = _
      rw [halpha, lerpWrite_scale]
      simp [hflags.2.2.1, hf, Vec3_lerp_one, htars.2.2.1]
    · show (lerpWrite (tickStep st.notify dt).2 (tickAlphaFinal st.notify dt) st.capsule).lineThickness = _
      rw [halpha, lerpWrite_lineThickness]
      simp [hflags.2.2.2.1, hf, lerpQ_one, htars.2.2.2.1]
    · show (lerpWrite (tickStep st.notify dt).2 (tickAlphaFinal st.notify dt) st.capsule).shapeColor = _
      rw [halpha, lerpWrite_shapeColor]
      simp [hflags.2.2.2.2, hf, LinearColor_lerp_one, htars.2.2.2.2]

/-- C5 (amended): with blend-in = 0, blend-out = 0 and no ease curve, after
a successful `Begin` every modified attribute equals its resolved target,
every subsequent `Tick` computes raw alpha 1 and leaves modified attributes
at their resolved targets; `End` reverts radius, half-height, scale and
shape color to their pre-`Begin` values, while the modified line thickness
is set to the session's stored `OriginalLineThickness` member, which
`Begin` never reads from the target. -/
theorem C5_amended_zero_blend (s : SysState) (total : ℚ)
    (hin : s.notify.blendTimeIn = 0) (hout : s.notify.blendTimeOut = 0)
    (hease : s.notify.easeCurve = none) :
    ((s.notify.bModifyRadius = true →
      (NotifyBegin s true true total).capsule.radius =
        (NotifyBegin s true true total).notify.targetRadius) ∧
     (s.notify.bModifyHalfHeight = true →
      (NotifyBegin s true true total).capsule.halfHeight =
        (NotifyBegin s true true total).notify.targetHalfHeight) ∧
     (s.notify.bModifyScale = true →
      (NotifyBegin s true true total).capsule.scale =
        (NotifyBegin s true true total).notify.targetScale) ∧
     (s.notify.bModifyLineThickness = true →
      (NotifyBegin s true true total).capsule.lineThickness =
        (NotifyBegin s true true total).notify.targetLineThickness) ∧
     (s.notify.bModifyShapeColor = true →
      (NotifyBegin s true true total).capsule.shapeColor =
        (NotifyBegin s true true total).notify.targetShapeColor)) ∧
    (∀ (pre : List ℚ) (d : ℚ),
      tickRawClamped (runTicks (NotifyBegin s true true total) pre).notify d = 1) ∧
    (∀ pre : List ℚ,
      (s.notify.bModifyRadius = true →
        (runTicks (NotifyBegin s true true total) pre).capsule.radius =
          (NotifyBegin s true true total).notify.targetRadius) ∧
      (s.notify.bModifyHalfHeight = true →
        (runTicks (NotifyBegin s true true total) pre).capsule.halfHeight =
          (NotifyBegin s true true total).notify.targetHalfHeight) ∧
      (s.notify.bModifyScale = true →
        (runTicks (NotifyBegin s true true total) pre).capsule.scale =
          (NotifyBegin s true true total).notify.targetScale) ∧
      (s.notify.bModifyLineThickness = true →
        (runTicks (NotifyBegin s true true total) pre).capsule.lineThickness =
          (NotifyBegin s true true total).notify.targetLineThickness) ∧
      (s.notify.bModifyShapeColor = true →
        (runTicks (NotifyBegin s true true total) pre).capsule.shapeColor =
          (NotifyBegin s true true total).notify.targetShapeColor)) ∧
    (∀ ds : List ℚ,
      (s.notify.bModifyRadius = true →
        (NotifyEnd (runTicks (NotifyBegin s true true total) ds)).capsule.radius = s.capsule.radius) ∧
      (s.notify.bModifyHalfHeight = true →
        (NotifyEnd (runTicks (NotifyBegin s true true total) ds)).capsule.halfHeight = s.capsule.halfHeight) ∧
      (s.notify.bModifyScale = true →
        (NotifyEnd (runTicks (NotifyBegin s true true total) ds)).capsule.scale = s.capsule.scale) ∧
      (s.notify.bModifyLineThickness = true →
        (NotifyEnd (runTicks (NotifyBegin s true true total) ds)).capsule.lineThickness = s.notify.originalLineThickness) ∧
      (s.notify.bModifyShapeColor = true →
        (NotifyEnd (runTicks (NotifyBegin s true true total) ds)).capsule.shapeColor = s.capsule.shapeColor)) := by
  have hact := NotifyBegin_success_active s total
  have hcfg := NotifyBegin_success_config s total
  have horig := NotifyBegin_success_originals s total
  have hbin1 : (NotifyBegin s true true total).notify.blendTimeIn = 0 :=
    hcfg.2.2.2.2.2.1.trans hin
  have hbout1 : (NotifyBegin s true true total).notify.blendTimeOut = 0 :=
    hcfg.2.2.2.2.2.2.1.trans hout
  have heas1 : (NotifyBegin s true true total).notify.easeCurve = none :=
    hcfg.2.2.2.2.2.2.2.1.trans hease
  have hinst := begin_instant_attrs s total (by rw [hin]; norm_num [KINDA_SMALL_NUMBER])
  have hQ1 : holdsAtTargets (NotifyBegin s true true total) (NotifyBegin s true true total) := by
    refine ⟨⟨(NotifyBegin s true true total).notify.elapsedTime,
      (NotifyBegin s true true total).notify.blendInAlpha,
      (NotifyBegin s true true total).notify.blendOutAlpha, rfl⟩, ?_, ?_, ?_, ?_, ?_⟩
    · exact fun hf => hinst.1 (hcfg.1.symm.trans hf)
    · exact fun hf => hinst.2.1 (hcfg.2.1.symm.trans hf)
    · exact fun hf => hinst.2.2.1 (hcfg.2.2.1.symm.trans hf)
    · exact fun hf => hinst.2.2.2.1 (hcfg.2.2.2.1.symm.trans hf)
    · exact fun hf => hinst.2.2.2.2 (hcfg.2.2.2.2.1.symm.trans hf)
  have hrun : ∀ ls : List ℚ,
      holdsAtTargets (NotifyBegin s true true total)
        (runTicks (NotifyBegin s true true total) ls) := by
    intro ls
    exact runTicks_invariant _
      (fun st dt h => holdsAtTargets_step _ st dt hact.1 hact.2 hbin1 hbout1 heas1 h)
      ls _ hQ1
  refine ⟨hinst, ?_, ?_, ?_⟩
  · intro pre d
    obtain ⟨⟨e, bi, bo, hn⟩, -⟩ := hrun pre
    have hb1 : (runTicks (NotifyBegin s true true total) pre).notify.blendTimeIn = 0 := by
      rw [hn]; exact hbin1
    have hb2 : (runTicks (NotifyBegin s true true total) pre).notify.blendTimeOut = 0 := by
      rw [hn]; exact hbout1
    unfold tickRawClamped
    rw [tickStep_fst_one _ d hb1 hb2]
    exact clamp01_one
  · intro pre
    obtain ⟨-, hr, hh, hsc, hlt, hcol⟩ := hrun pre
    exact ⟨fun hf => hr (hcfg.1.trans hf), fun hf => hh (hcfg.2.1.trans hf),
      fun hf => hsc (hcfg.2.2.1.trans hf), fun hf => hlt (hcfg.2.2.2.1.trans hf),
      fun hf => hcol (hcfg.2.2.2.2.1.trans hf)⟩
  · intro ds
    obtain ⟨⟨e, bi, bo, hn⟩, -⟩ := hrun ds
    have hA' : (runTicks (NotifyBegin s true true total) ds).notify.bHasValidOriginals = true := by
      rw [hn]; exact hact.1
    have hC' : (runTicks (NotifyBegin s true true total) ds).notify.hasCapsule = true := by
      rw [hn]; exact hact.2
    rw [NotifyEnd_active _ hA' hC']
    refine ⟨fun hf => ?_, fun hf => ?_, fun hf => ?_, fun hf => ?_, fun hf => ?_⟩
    · show (restoreOriginalCollisionSettings _ (restoreAttributes _ _)).radius = _
      rw [restoreCollision_radius, restoreAttributes_radius]
      have hfl : (runTicks (NotifyBegin s true true total) ds).notify.bModifyRadius = true := by
        rw [hn]; exact hcfg.1.trans hf
      have ho : (runTicks (NotifyBegin s true true total) ds).notify.originalRadius = s.capsule.radius := by
        rw [hn]; exact horig.1
      simp [hfl, ho]
    · show (restoreOriginalCollisionSettings _ (restoreAttributes _ _)).halfHeight = _
      rw [restoreCollision_halfHeight, restoreAttributes_halfHeight]
      have hfl : (runTicks (NotifyBegin s true true total) ds).notify.bModifyHalfHeight = true := by
        rw [hn]; exact hcfg.2.1.trans hf
      have ho : (runTicks (NotifyBegin s true true total) ds).notify.originalHalfHeight = s.capsule.halfHeight := by
        rw [hn]; exact horig.2.1
      simp [hfl, ho]
    · show (restoreOriginalCollisionSettings _ (restoreAttributes _ _)).scale = _
      rw [restoreCollision_scale, restoreAttributes_scale]
      have hfl : (runTicks (NotifyBegin s true true total) ds).notify.bModifyScale = true := by
        rw [hn]; exact hcfg.2.2.1.trans hf
      have ho : (runTicks (NotifyBegin s true true total) ds).notify.originalScale = s.capsule.scale := by
        rw [hn]; exact horig.2.2.1
      simp [hfl, ho]
    · show (restoreOriginalCollisionSettings _ (restoreAttributes _ _)).lineThickness = _
      rw [restoreCollision_lineThickness, restoreAttributes_lineThickness]
      have hfl : (runTicks (NotifyBegin s true true total) ds).notify.bModifyLineThickness = true := by
        rw [hn]; exact hcfg.2.2.2.1.trans hf
      have ho : (runTicks (NotifyBegin s true true total) ds).notify.originalLineThickness = s.notify.originalLineThickness := by
        rw [hn]; exact horig.2.2.2.2
      simp [hfl, ho]
    · show (restoreOriginalCollisionSettings _ (restoreAttributes _ _)).shapeColor = _
      rw [restoreCollision_shapeColor, restoreAttributes_shapeColor]
      have hfl : (runTicks (NotifyBegin s true true total) ds).notify.bModifyShapeColor = true := by
        rw [hn]; exact hcfg.2.2.2.2.1.trans hf
      have ho : (runTicks (NotifyBegin s true true total) ds).notify.originalShapeColor = s.capsule.shapeColor := by
        rw [hn]; exact horig.2.2.2.1
      simp [hfl, ho]

/-- The C5 counterexample state: line thickness modified, zero blends; the
capsule's line thickness is 7 while the session's stale
`OriginalLineThickness` member is 0. -/
def c5x : SysState :=
  ⟨{ baseNotify with
      bModifyLineThickness := true
      newLineThickness := 20 }, { baseCap with lineThickness := 7 }⟩

/-- Counterexample to C5 as stated: with blend-in = blend-out = 0 and the
line-thickness modify flag set, `End` does not revert the attribute to its
pre-`Begin` value (7): it writes the never-captured member value 0. -/
theorem C5_counterexample :
    c5x.capsule.lineThickness = 7 ∧
    (NotifyEnd (runTicks (NotifyBegin c5x true true 1) [])).capsule.lineThickness = 0 ∧
    ¬ (NotifyEnd (runTicks (NotifyBegin c5x true true 1) [])).capsule.lineThickness
        = c5x.capsule.lineThickness := by
  refine ⟨rfl, ?_, ?_⟩ <;>
    norm_num [runTicks, NotifyEnd, NotifyBegin, restoreCollision_lineThickness,
      restoreAttributes_lineThickness, applyCollisionSettings_lineThickness,
      applyInstantBlendIn_lineThickness, KINDA_SMALL_NUMBER,
      c5x, baseNotify, baseCap, baseCollisionCfg]

/-- The C5 witness state: radius modified from 30 toward 50, zero blends. -/
def c5w : SysState :=
  ⟨{ baseNotify with
      bModifyRadius := true
      newRadius := 50 }, { baseCap with radius := 30 }⟩

/-- Witness for the amended C5 on a concrete one-tick session. -/
theorem C5_amended_zero_blend_witness :
    (runTicks (NotifyBegin c5w true true 1) [1/4]).capsule.radius =
      (NotifyBegin c5w true true 1).notify.targetRadius ∧
    (NotifyEnd (runTicks (NotifyBegin c5w true true 1) [1/4])).capsule.radius =
      c5w.capsule.radius :=
  have h := C5_amended_zero_blend c5w 1 rfl rfl rfl
  ⟨(h.2.2.1 [1/4]).1 rfl, (h.2.2.2 [1/4]).1 rfl⟩

/-- The C6 scenario state: radius modified from 30 toward 50, total
duration 2, blend-in 0.5, blend-out 0.5, linear shapes, no ease curve. -/
def c6s : SysState :=
  ⟨{ baseNotify with
      bModifyRadius := true
      newRadius := 50
      blendTimeIn := 1/2
      blendTimeOut := 1/2 }, { baseCap with radius := 30 }⟩

/-- Counterexample to C6 as stated: ticking 0.25 s, 0.75 s, 0.9 s reaches
elapsed = 1.9 with radius 30, not the claimed 40 — the blend-out evaluator
was advanced by the full 0.9 s frame delta and is already complete. -/
theorem C6_counterexample :
    (runTicks (NotifyBegin c6s true true 2) [1/4, 3/4, 9/10]).notify.elapsedTime = 19/10 ∧
    (runTicks (NotifyBegin c6s true true 2) [1/4, 3/4, 9/10]).capsule.radius = 30 ∧
    ¬ (runTicks (NotifyBegin c6s true true 2) [1/4, 3/4, 9/10]).capsule.radius = 40 := by
  refine ⟨?_, ?_, ?_⟩ <;>
    norm_num [runTicks, NotifyTick, NotifyBegin, tickStep, tickRawAlpha, tickRawClamped,
      tickAlphaFinal, lerpWrite, applyInstantBlendIn, applyCollisionSettings_radius,
      AlphaBlend.update, AlphaBlend.getBlendedValue, BlendOption.linear, clamp01, lerpQ,
      KINDA_SMALL_NUMBER, c6s, baseNotify, baseCap, baseCollisionCfg]

/-- C6 (amended): in the 2 s scenario with blend-in = blend-out = 0.5 s and
radius 30 → 50, the radius is 30 right after `Begin`, 40 at elapsed 0.25,
50 at elapsed 1.0, 30 at elapsed 1.9 when reached with frame deltas 0.25,
0.75, 0.9 (the blend-out evaluator advances by whole frame deltas, so it is
already complete there), and 30 after `End`. -/
theorem C6_amended_scenario :
    (NotifyBegin c6s true true 2).capsule.radius = 30 ∧
    (runTicks (NotifyBegin c6s true true 2) [1/4]).capsule.radius = 40 ∧
    (runTicks (NotifyBegin c6s true true 2) [1/4, 3/4]).capsule.radius = 50 ∧
    (runTicks (NotifyBegin c6s true true 2) [1/4, 3/4, 9/10]).capsule.radius = 30 ∧
    (NotifyEnd (runTicks (NotifyBegin c6s true true 2) [1/4, 3/4, 9/10])).capsule.radius = 30 := by
  refine ⟨?_, ?_, ?_, ?_, ?_⟩ <;>
    norm_num [runTicks, NotifyTick, NotifyBegin, NotifyEnd, tickStep, tickRawAlpha,
      tickRawClamped, tickAlphaFinal, lerpWrite, restoreAttributes_radius,
      restoreCollision_radius, applyInstantBlendIn, applyCollisionSettings_radius,
      AlphaBlend.update, AlphaBlend.getBlendedValue, BlendOption.linear, clamp01, lerpQ,
      KINDA_SMALL_NUMBER, c6s, baseNotify, baseCap, baseCollisionCfg]

/-- The C1 failing state: the capsule's line thickness is 5, the session's
pre-existing `OriginalLineThickness` member is 1, line thickness modified
toward 20 with instant blend-in. -/
def c1x : SysState :=
  ⟨{ baseNotify with
      bModifyLineThickness := true
      newLineThickness := 20
      originalLineThickness := 1 }, { baseCap with lineThickness := 5 }⟩

/-- C1 evaluated at the failing input: `Begin` never captures the target's
line thickness (the stored original stays 1, not 5), and `End` therefore
writes 1 instead of the pre-`Begin` value 5. -/
theorem C1_lineThickness_restore_bug :
    c1x.capsule.lineThickness = 5 ∧
    (NotifyBegin c1x true true 1).notify.originalLineThickness = 1 ∧
    (NotifyEnd (NotifyBegin c1x true true 1)).capsule.lineThickness = 1 ∧
    ¬ (NotifyEnd (NotifyBegin c1x true true 1)).capsule.lineThickness
        = c1x.capsule.lineThickness := by
  refine ⟨rfl, ?_, ?_, ?_⟩ <;>
    norm_num [NotifyEnd, NotifyBegin, restoreCollision_lineThickness,
      restoreAttributes_lineThickness, applyCollisionSettings_lineThickness,
      applyInstantBlendIn_lineThickness, KINDA_SMALL_NUMBER,
      c1x, baseNotify, baseCap, baseCollisionCfg]
